import Mathlib

/-!
Verification of the slime-sports physics kernel and rollout simulators.

The development shallowly embeds the game's physics code over the real
numbers: `Math.hypot(a, b)` becomes `Real.sqrt (a^2 + b^2)`, and the
`cos/sin` of `Math.atan2(dy, dx)` become `dx / dist` and `dy / dist`
(equal to the source expressions whenever `dist > 0`, which every use
site guards).  `Date.now()` is modelled as an explicit integer argument
threaded into the functions that read it.
-/

namespace SlimeSpec

/-- Global configuration constant: internal playfield width (CONFIG.internalWidth). -/
def internalWidth : ℝ := 1000

/-- Global configuration constant: internal playfield height (CONFIG.internalHeight). -/
def internalHeight : ℝ := 600

/-- Global configuration constant: gravity per tick (CONFIG.gravity). -/
def gravity : ℝ := 0.55

/-- Global configuration constant: per-tick friction multiplier (CONFIG.friction). -/
def friction : ℝ := 0.99

/-- Global configuration constant: slime lateral move speed (CONFIG.slimeSpeed). -/
def slimeSpeed : ℝ := 8

/-- Global configuration constant: slime jump impulse (CONFIG.slimeJumpForce). -/
def slimeJumpForce : ℝ := 14

/-- Global configuration constant: global ball speed cap (CONFIG.ballMaxSpeed). -/
def ballMaxSpeed : ℝ := 22

/-- Global configuration constant: ground band height (CONFIG.groundHeight). -/
def groundHeight : ℝ := 50

/-- Global configuration constant: slime radius (CONFIG.slimeRadius). -/
def slimeRadius : ℝ := 50

/-- Global configuration constant: ball radius (CONFIG.ballRadius). -/
def ballRadius : ℝ := 13

/-- Global configuration constant: standard pop force (CONFIG.popForce). -/
def popForce : ℝ := 12

/-- Global configuration constant: volleyball net width (CONFIG.VOLLEYBALL_NET_W). -/
def NET_W : ℝ := 20

/-- Global configuration constant: volleyball net height (CONFIG.VOLLEYBALL_NET_H). -/
def NET_H : ℝ := 80

/-- Global configuration constant: soccer goal opening height (CONFIG.SOCCER_GOAL_H). -/
def GOAL_H : ℝ := 130

/-- Global configuration constant: soccer crossbar radius (CONFIG.SOCCER_CROSSBAR_R). -/
def CROSSBAR_R : ℝ := 8

/-- Slime entity state (the kinematic fields of SlimeBase). -/
structure Slime where
  isPlayer1 : Bool
  x : ℝ
  y : ℝ
  vx : ℝ
  vy : ℝ

/-- Ball entity state (the kinematic fields of BallBase plus the freeze timer,
which is a millisecond timestamp compared against Date.now()). -/
structure Ball where
  x : ℝ
  y : ℝ
  prevX : ℝ
  prevY : ℝ
  vx : ℝ
  vy : ℝ
  frozenUntil : ℤ

/-- An input source maps a key code to whether that key is currently down
(InputSource.isDown). -/
abbrev InputSource := String → Bool

/-- Squared speed of the ball; `Math.hypot(vx, vy)` squared. -/
def speedSq (b : Ball) : ℝ := b.vx ^ 2 + b.vy ^ 2

/-- Speed magnitude of the ball: `Math.hypot(this.vx, this.vy)`. -/
noncomputable def ballSpeed (b : Ball) : ℝ := Real.sqrt (speedSq b)

/-- The left lateral digital signal selected for a slime's side
(SlimeBase.update lines 55-62). -/
def leftSignal (input : InputSource) (s : Slime) : Bool :=
  if s.isPlayer1 then input "KeyA" else input "ArrowLeft"

/-- The right lateral digital signal selected for a slime's side. -/
def rightSignal (input : InputSource) (s : Slime) : Bool :=
  if s.isPlayer1 then input "KeyD" else input "ArrowRight"

/-- The jump digital signal selected for a slime's side. -/
def jumpSignal (input : InputSource) (s : Slime) : Bool :=
  if s.isPlayer1 then input "KeyW" else input "ArrowUp"

/-- SlimeBase.update: read the side's lateral and jump signals, set lateral
velocity (left writes first, right overwrites), jump only when resting on the
ground line, apply gravity, integrate, clamp to the ground line zeroing
vertical velocity on penetration.  The variant-specific applyBoundaries is
applied separately. -/
noncomputable def slimeUpdateCore (input : InputSource) (s : Slime) : Slime :=
  let moveLeft := leftSignal input s
  let moveRight := rightSignal input s
  let jump := jumpSignal input s
  let vx : ℝ := if moveRight then slimeSpeed else if moveLeft then -slimeSpeed else 0
  let groundY := internalHeight - groundHeight
  let vy : ℝ := if jump ∧ s.y ≥ groundY then -slimeJumpForce else s.vy
  let vy := vy + gravity
  let x := s.x + vx
  let y := s.y + vy
  if y > groundY then { s with x := x, y := groundY, vx := vx, vy := 0 }
  else { s with x := x, y := y, vx := vx, vy := vy }

/-- SlimeSoccer.applyBoundaries: full-court side-wall clamping. -/
noncomputable def applyBoundariesSoccer (s : Slime) : Slime :=
  let s := if s.x - slimeRadius < 0 then { s with x := slimeRadius } else s
  if s.x + slimeRadius > internalWidth then { s with x := internalWidth - slimeRadius } else s

/-- SlimeVolleyball.applyBoundaries: half-court clamping split at the net. -/
noncomputable def applyBoundariesVolleyball (s : Slime) : Slime :=
  let r := slimeRadius
  let netX := internalWidth / 2
  let netW := NET_W / 2
  if s.isPlayer1 then
    let s := if s.x + r > netX - netW then { s with x := netX - netW - r } else s
    if s.x - r < 0 then { s with x := r } else s
  else
    let s := if s.x - r < netX + netW then { s with x := netX + netW + r } else s
    if s.x + r > internalWidth then { s with x := internalWidth - r } else s

/-- Full per-tick update of a soccer slime (SlimeBase.update then
SlimeSoccer.applyBoundaries). -/
noncomputable def slimeUpdateSoccer (input : InputSource) (s : Slime) : Slime :=
  applyBoundariesSoccer (slimeUpdateCore input s)

/-- Full per-tick update of a volleyball slime (SlimeBase.update then
SlimeVolleyball.applyBoundaries). -/
noncomputable def slimeUpdateVolleyball (input : InputSource) (s : Slime) : Slime :=
  applyBoundariesVolleyball (slimeUpdateCore input s)

/-- The speed clamp used both during integration and after slime-hit
resolution: if `hypot(vx, vy)` exceeds ballMaxSpeed, rescale both components
by `ballMaxSpeed / speed`. -/
noncomputable def clampBallSpeed (b : Ball) : Ball :=
  let speed := Real.sqrt (b.vx ^ 2 + b.vy ^ 2)
  if speed > ballMaxSpeed then
    { b with vx := b.vx * (ballMaxSpeed / speed), vy := b.vy * (ballMaxSpeed / speed) }
  else b

/-- BallBase lines 44-50: record previous position, apply gravity to vy, then
apply friction to both components. -/
def applyGravityFriction (b : Ball) : Ball :=
  { b with prevX := b.x, prevY := b.y,
           vx := b.vx * friction, vy := (b.vy + gravity) * friction }

/-- BallBase lines 58-59: integrate position by velocity. -/
def integratePos (b : Ball) : Ball :=
  { b with x := b.x + b.vx, y := b.y + b.vy }

/-- BallBase.checkUniversalBoundaries: top-wall reflection with 0.5 restitution. -/
noncomputable def checkUniversalBoundaries (b : Ball) : Ball :=
  if b.y < ballRadius then { b with y := ballRadius, vy := |b.vy| * 0.5 } else b

/-- BallBase.resolveCircleCollision: elastic-circle bounce used for goal
crossbars and the net cap; the contact normal `(cos angle, sin angle)` is
`(dx / dist, dy / dist)`, well defined because the guard requires `dist > 0`. -/
noncomputable def resolveCircleCollision (b : Ball) (cx cy cr : ℝ) : Ball :=
  let dx := b.x - cx
  let dy := b.y - cy
  let dist := Real.sqrt (dx ^ 2 + dy ^ 2)
  let minDist := ballRadius + cr
  if dist < minDist ∧ dist > 0 then
    let nx := dx / dist
    let ny := dy / dist
    let overlap := minDist - dist
    let dot := b.vx * nx + b.vy * ny
    { b with
      x := b.x + nx * overlap,
      y := b.y + ny * overlap,
      vx := b.vx - 1.8 * dot * nx,
      vy := b.vy - 1.8 * dot * ny }
  else b

/-- Type of a variant-specific resolveSlimeHit: arguments are the slime, the
contact normal components `cos angle` and `sin angle`, the stomp flag and the
raw horizontal offset `dx`, acting on the ball. -/
abbrev HitResolver := Slime → ℝ → ℝ → Bool → ℝ → Ball → Ball

/-- BallBase.resolveSlimeHit: generic velocity response with a 30%-radius
overhead window and 1.5x lateral momentum inheritance, re-clamped at the end. -/
noncomputable def resolveSlimeHitBase : HitResolver := fun sl c sn isStomp dx b =>
  let horizontalThreshold := slimeRadius * 0.3
  let isDirectlyOnTop := |dx| < horizontalThreshold
  let slimeHorizontalMomentum := sl.vx * 1.5
  let b1 :=
    if isStomp then
      if isDirectlyOnTop then
        { b with vx := slimeHorizontalMomentum, vy := -10 + sl.vy * 0.5 }
      else
        let horizontalDir : ℝ := if dx > 0 then 1 else -1
        { b with vx := horizontalDir * 12 + slimeHorizontalMomentum,
                 vy := -10 + sl.vy * 0.5 }
    else
      if isDirectlyOnTop then
        { b with vx := slimeHorizontalMomentum, vy := -popForce + sl.vy * 1.1 }
      else
        { b with vx := c * popForce + slimeHorizontalMomentum,
                 vy := min (sn * popForce + sl.vy * 1.1) 15 }
  clampBallSpeed b1

/-- BallSoccer.resolveSlimeHit: 10%-radius overhead window, 1.25x momentum
inheritance, extra lateral drift in the directly-on-top branches, re-clamped. -/
noncomputable def resolveSlimeHitSoccer : HitResolver := fun sl c sn isStomp dx b =>
  let horizontalThreshold := slimeRadius * 0.10
  let isDirectlyOnTop := |dx| < horizontalThreshold
  let slimeHorizontalMomentum := sl.vx * 1.25
  let b1 :=
    if isStomp then
      if isDirectlyOnTop then
        let dxPrev := b.prevX - sl.x
        let driftDir : ℝ :=
          if dxPrev = 0 then (if sl.vx ≥ 0 then 1 else -1) else (if dxPrev > 0 then 1 else -1)
        { b with vx := slimeHorizontalMomentum + driftDir * 3.0,
                 vy := -8.5 + sl.vy * 0.45 }
      else
        let horizontalDir : ℝ := if dx > 0 then 1 else -1
        { b with vx := horizontalDir * 12 + slimeHorizontalMomentum,
                 vy := -10 + sl.vy * 0.5 }
    else
      if isDirectlyOnTop then
        let dxPrev := b.prevX - sl.x
        let driftDir : ℝ :=
          if dxPrev = 0 then (if sl.vx ≥ 0 then 1 else -1) else (if dxPrev > 0 then 1 else -1)
        { b with vx := slimeHorizontalMomentum + driftDir * 2.2,
                 vy := -(popForce * 0.78) + sl.vy * 0.9 }
      else
        { b with vx := c * popForce + slimeHorizontalMomentum,
                 vy := min (sn * popForce + sl.vy * 1.1) 15 }
  clampBallSpeed b1

/-- BallVolleyball.resolveSlimeHit: 10%-radius overhead window, 1.5x momentum
inheritance, no drift, re-clamped. -/
noncomputable def resolveSlimeHitVolleyball : HitResolver := fun sl c sn isStomp dx b =>
  let horizontalThreshold := slimeRadius * 0.10
  let isDirectlyOnTop := |dx| < horizontalThreshold
  let slimeHorizontalMomentum := sl.vx * 1.5
  let b1 :=
    if isStomp then
      if isDirectlyOnTop then
        { b with vx := slimeHorizontalMomentum, vy := -10 + sl.vy * 0.5 }
      else
        let horizontalDir : ℝ := if dx > 0 then 1 else -1
        { b with vx := horizontalDir * 12 + slimeHorizontalMomentum,
                 vy := -10 + sl.vy * 0.5 }
    else
      if isDirectlyOnTop then
        { b with vx := slimeHorizontalMomentum, vy := -popForce + sl.vy * 1.1 }
      else
        { b with vx := c * popForce + slimeHorizontalMomentum,
                 vy := min (sn * popForce + sl.vy * 1.1) 15 }
  clampBallSpeed b1

/-- BallBase.checkSlimeCollision: detect overlap, bail out on degenerate or
below-base contact, correct position along the contact normal, classify the
stomp, and delegate velocity resolution to the variant resolver. -/
noncomputable def checkSlimeCollision (hit : HitResolver) (sl : Slime) (b : Ball) : Ball :=
  let dx := b.x - sl.x
  let dy := b.y - sl.y
  let dist := Real.sqrt (dx ^ 2 + dy ^ 2)
  let minDist := slimeRadius + ballRadius
  if dist < minDist then
    if dist = 0 ∨ dy > 0 then b
    else
      let nx := dx / dist
      let ny := dy / dist
      let overlap := minDist - dist
      let b1 := { b with x := b.x + nx * overlap, y := b.y + ny * overlap }
      let isStomp : Bool := if ny < -0.8 then true else false
      hit sl nx ny isStomp dx b1
  else b

/-- Ground line height: internalHeight - groundHeight = 550. -/
noncomputable def groundY : ℝ := internalHeight - groundHeight

/-- Top of the soccer goal opening: groundY - SOCCER_GOAL_H = 420. -/
noncomputable def goalTopY : ℝ := groundY - GOAL_H

/-- Horizontal centre of the volleyball net. -/
noncomputable def netX : ℝ := internalWidth / 2

/-- Half of the volleyball net width. -/
noncomputable def halfNetW : ℝ := NET_W / 2

/-- Top of the volleyball net body. -/
noncomputable def netTopY : ℝ := groundY - NET_H

/-- Centre height of the volleyball net cap circle. -/
noncomputable def capCenterY : ℝ := netTopY + halfNetW

/-- Radius-inflated left net-post plane. -/
noncomputable def leftEdgeX : ℝ := netX - halfNetW - ballRadius

/-- Radius-inflated right net-post plane. -/
noncomputable def rightEdgeX : ℝ := netX + halfNetW + ballRadius

/-- BallSoccer.checkGameGeometry, ground bounce stage: vertical restitution
-0.80 with slight horizontal damping. -/
noncomputable def soccerGroundBounce (b : Ball) : Ball :=
  if b.y + ballRadius > groundY then
    { b with y := groundY - ballRadius, vy := b.vy * (-0.80), vx := b.vx * 0.95 } else b

/-- BallSoccer.checkGameGeometry, left wall stage: bounce above the goal
opening, score for player 2 on a full crossing inside the opening. -/
noncomputable def soccerLeftWall (b : Ball) : Ball × List ℕ :=
  if b.x < ballRadius then
    if b.y < goalTopY then ({ b with x := ballRadius, vx := b.vx * (-0.8) }, [])
    else if b.x < -ballRadius then (b, [2]) else (b, [])
  else (b, [])

/-- BallSoccer.checkGameGeometry, right wall stage: bounce above the goal
opening, score for player 1 on a full crossing inside the opening. -/
noncomputable def soccerRightWall (b : Ball) : Ball × List ℕ :=
  if b.x > internalWidth - ballRadius then
    if b.y < goalTopY then
      ({ b with x := internalWidth - ballRadius, vx := b.vx * (-0.8) }, [])
    else if b.x > internalWidth + ballRadius then (b, [1]) else (b, [])
  else (b, [])

/-- BallSoccer.checkGameGeometry: ground bounce, side walls with goal
openings (scorePoint calls are returned as a list of scoring players), then
the two crossbar circle collisions. -/
noncomputable def checkGameGeometrySoccer (b : Ball) : Ball × List ℕ :=
  let r1 := soccerLeftWall (soccerGroundBounce b)
  let r2 := soccerRightWall r1.1
  (resolveCircleCollision (resolveCircleCollision r2.1 0 goalTopY CROSSBAR_R)
      internalWidth goalTopY CROSSBAR_R,
    r1.2 ++ r2.2)

/-- BallVolleyball.checkGameGeometry, side wall stage: pure reflections with
restitution -1. -/
noncomputable def volleySideWalls (b : Ball) : Ball :=
  let b := if b.x < ballRadius then { b with x := ballRadius, vx := b.vx * (-1) } else b
  if b.x > internalWidth - ballRadius then
    { b with x := internalWidth - ballRadius, vx := b.vx * (-1) } else b

/-- BallVolleyball.checkGameGeometry, net stage: net-cap circle collision
(early return), else the previous-vs-current crossing test against the
radius-inflated post planes with restitution -0.7. -/
noncomputable def volleyNet (b : Ball) : Ball :=
  let distToCap := Real.sqrt ((b.x - netX) ^ 2 + (b.y - capCenterY) ^ 2)
  if b.y < capCenterY ∧ distToCap < ballRadius + halfNetW then
    resolveCircleCollision b netX capCenterY halfNetW
  else if b.y ≥ capCenterY then
    if b.prevX ≤ leftEdgeX ∧ b.x > leftEdgeX then
      { b with x := leftEdgeX, vx := b.vx * (-0.7) }
    else if b.prevX ≥ rightEdgeX ∧ b.x < rightEdgeX then
      { b with x := rightEdgeX, vx := b.vx * (-0.7) }
    else b
  else b

/-- BallVolleyball.checkGameGeometry: ground scoring (early return, opposite
side of the half the ball landed on), then side walls and the net. -/
noncomputable def checkGameGeometryVolleyball (b : Ball) : Ball × List ℕ :=
  if b.y + ballRadius > groundY then
    (b, [if b.x < netX then 2 else 1])
  else
    (volleyNet (volleySideWalls b), [])

/-- Body of BallBase.update after the freeze check: gravity, friction, speed
clamp, integration, top wall, variant geometry, then collision against each
slime in turn.  Returns the updated ball and the tick's scoring events. -/
noncomputable def ballUpdateBody (geom : Ball → Ball × List ℕ) (hit : HitResolver)
    (p1 p2 : Slime) (b : Ball) : Ball × List ℕ :=
  let b1 := integratePos (clampBallSpeed (applyGravityFriction b))
  let b2 := checkUniversalBoundaries b1
  let gr := geom b2
  let b3 := checkSlimeCollision hit p1 gr.1
  let b4 := checkSlimeCollision hit p2 b3
  (b4, gr.2)

/-- BallBase.update including the freeze check against the current wall-clock
time `now` (Date.now()). -/
noncomputable def ballUpdateWith (geom : Ball → Ball × List ℕ) (hit : HitResolver)
    (now : ℤ) (p1 p2 : Slime) (b : Ball) : Ball × List ℕ :=
  if now < b.frozenUntil then (b, []) else ballUpdateBody geom hit p1 p2 b

/-- One unfrozen-or-frozen soccer ball tick (BallSoccer inherits
BallBase.update and overrides geometry and hit resolution). -/
noncomputable def ballUpdateSoccer (now : ℤ) (p1 p2 : Slime) (b : Ball) : Ball × List ℕ :=
  ballUpdateWith checkGameGeometrySoccer resolveSlimeHitSoccer now p1 p2 b

/-- One volleyball ball tick (BallVolleyball inherits BallBase.update and
overrides geometry and hit resolution). -/
noncomputable def ballUpdateVolleyball (now : ℤ) (p1 p2 : Slime) (b : Ball) : Ball × List ℕ :=
  ballUpdateWith checkGameGeometryVolleyball resolveSlimeHitVolleyball now p1 p2 b

/-- Kinematic snapshot of one entity used by the rollout simulators. -/
structure EntitySnap where
  x : ℝ
  y : ℝ
  vx : ℝ
  vy : ℝ


/-- Rollout snapshot of the whole world (SoccerWorldSnapshot and
VolleyballWorldSnapshot share this shape). -/
structure WorldSnapshot where
  p1 : EntitySnap
  p2 : EntitySnap
  ball : EntitySnap


/-- Discrete lateral action searched over by the decision engines. -/
inductive Action where
  | LEFT
  | RIGHT
  | NONE
deriving DecidableEq, Repr

/-- Action plan: a lateral action plus a jump-on-first-step flag. -/
structure Plan where
  action : Action
  jumpOnStep0 : Bool


/-- Verdict of a rollout. -/
inductive Verdict where
  | none
  | win
  | loss
deriving DecidableEq, Repr

/-- Result of a soccer rollout. -/
structure RolloutResult where
  verdict : Verdict
  step : Option ℕ
  endSnap : WorldSnapshot


/-- Trajectory metrics reported by the volleyball rollout. -/
structure VolleyMetrics where
  netCrossings : ℕ
  endNoCrossTicks : ℕ
  maxNoCrossTicks : ℕ
  ourSideTicks : ℕ
  oppSideTicks : ℕ


/-- Result of a volleyball rollout. -/
structure VolleyRolloutResult where
  verdict : Verdict
  step : Option ℕ
  endSnap : WorldSnapshot
  metrics : VolleyMetrics


/-- Source of the opposing side's inputs in a rollout: an explicit plan takes
precedence, then a raw input source, else the neutral empty input. -/
inductive P1Source where
  | plan (p : Plan)
  | input (f : InputSource)
  | defaultNeutral

/-- The simulators' buildP2Input: the searching side's virtual key set. -/
def buildP2Input (a : Action) (jump : Bool) : InputSource := fun code =>
  if code = "ArrowLeft" then decide (a = Action.LEFT)
  else if code = "ArrowRight" then decide (a = Action.RIGHT)
  else if code = "ArrowUp" then jump
  else false

/-- The simulators' buildP1Input: the opposing side's virtual key set. -/
def buildP1Input (a : Action) (jump : Bool) : InputSource := fun code =>
  if code = "KeyA" then decide (a = Action.LEFT)
  else if code = "KeyD" then decide (a = Action.RIGHT)
  else if code = "KeyW" then jump
  else false

/-- Resolution of the optional opponent argument of simulate. -/
def resolveP1Input : P1Source → InputSource
  | P1Source.plan p => buildP1Input p.action p.jumpOnStep0
  | P1Source.input f => f
  | P1Source.defaultNeutral => fun _ => false

/-- A slime freshly constructed by a rollout and overwritten with snapshot
state (the constructor's start position is fully overwritten). -/
def restoreSlime (isPlayer1 : Bool) (e : EntitySnap) : Slime :=
  { isPlayer1 := isPlayer1, x := e.x, y := e.y, vx := e.vx, vy := e.vy }

/-- A ball freshly constructed by a rollout: snapshot kinematics, previous
position seeded from the current one, and the freeze timer reset to 0. -/
def restoreBall (e : EntitySnap) : Ball :=
  { x := e.x, y := e.y, prevX := e.x, prevY := e.y, vx := e.vx, vy := e.vy, frozenUntil := 0 }

/-- Snapshot extraction at the end of a rollout. -/
def snapshotOf (p1 p2 : Slime) (b : Ball) : WorldSnapshot :=
  { p1 := { x := p1.x, y := p1.y, vx := p1.vx, vy := p1.vy },
    p2 := { x := p2.x, y := p2.y, vx := p2.vx, vy := p2.vy },
    ball := { x := b.x, y := b.y, vx := b.vx, vy := b.vy } }

/-- Loop of SoccerRolloutSimulator.simulate: advance both slimes and the ball
each tick (passing the wall-clock stream `nows` to the freeze check), honour
the plan's jump only on step 0, and stop early on the first scoring event.
FakeGame.lastScore keeps the last scorePoint call of the tick. -/
noncomputable def soccerSimLoop (nows : ℕ → ℤ) (plan : Plan) (p1Input : InputSource) :
    ℕ → ℕ → Slime → Slime → Ball → RolloutResult
  | _, 0, p1, p2, b => ⟨Verdict.none, Option.none, snapshotOf p1 p2 b⟩
  | i, fuel + 1, p1, p2, b =>
    let jump := decide (i = 0) && plan.jumpOnStep0
    let p2Input := buildP2Input plan.action jump
    let p1n := slimeUpdateSoccer p1Input p1
    let p2n := slimeUpdateSoccer p2Input p2
    let res := ballUpdateSoccer (nows i) p1n p2n b
    match res.2.getLast? with
    | Option.some sp =>
      ⟨if sp = 2 then Verdict.win else Verdict.loss, Option.some (i + 1),
        snapshotOf p1n p2n res.1⟩
    | Option.none => soccerSimLoop nows plan p1Input (i + 1) fuel p1n p2n res.1

/-- SoccerRolloutSimulator.simulate: build throwaway entities from the
snapshot (freeze timer reset to 0) and run the tick loop. -/
noncomputable def soccerSimulate (nows : ℕ → ℤ) (snapshot : WorldSnapshot) (steps : ℕ)
    (plan : Plan) (p1src : P1Source) : RolloutResult :=
  soccerSimLoop nows plan (resolveP1Input p1src) 0 steps
    (restoreSlime true snapshot.p1) (restoreSlime false snapshot.p2)
    (restoreBall snapshot.ball)

/-- Loop state of the volleyball rollout's trajectory metrics. -/
structure VolleyLoopState where
  prevSideLeft : Bool
  netCrossings : ℕ
  noCrossTicks : ℕ
  maxNoCrossTicks : ℕ
  ourSideTicks : ℕ
  oppSideTicks : ℕ

/-- One tick of metric bookkeeping in VolleyballRolloutSimulator.simulate. -/
def volleyMetricsStep (st : VolleyLoopState) (ballLeft : Bool) : VolleyLoopState :=
  let st :=
    if ballLeft ≠ st.prevSideLeft then
      { st with netCrossings := st.netCrossings + 1, noCrossTicks := 0, prevSideLeft := ballLeft }
    else
      let n := st.noCrossTicks + 1
      { st with noCrossTicks := n, maxNoCrossTicks := max st.maxNoCrossTicks n }
  if ballLeft then { st with oppSideTicks := st.oppSideTicks + 1 }
  else { st with ourSideTicks := st.ourSideTicks + 1 }

/-- Metrics record extracted from the loop state. -/
def volleyMetricsOf (st : VolleyLoopState) : VolleyMetrics :=
  { netCrossings := st.netCrossings, endNoCrossTicks := st.noCrossTicks,
    maxNoCrossTicks := st.maxNoCrossTicks, ourSideTicks := st.ourSideTicks,
    oppSideTicks := st.oppSideTicks }

/-- Loop of VolleyballRolloutSimulator.simulate: per-tick physics, metric
bookkeeping, then the early return on the first scoring event. -/
noncomputable def volleySimLoop (nows : ℕ → ℤ) (plan : Plan) (p1Input : InputSource) :
    ℕ → ℕ → Slime → Slime → Ball → VolleyLoopState → VolleyRolloutResult
  | _, 0, p1, p2, b, st => ⟨Verdict.none, Option.none, snapshotOf p1 p2 b, volleyMetricsOf st⟩
  | i, fuel + 1, p1, p2, b, st =>
    let jump := decide (i = 0) && plan.jumpOnStep0
    let p2Input := buildP2Input plan.action jump
    let p1n := slimeUpdateVolleyball p1Input p1
    let p2n := slimeUpdateVolleyball p2Input p2
    let res := ballUpdateVolleyball (nows i) p1n p2n b
    let stn := volleyMetricsStep st (decide (res.1.x < internalWidth / 2))
    match res.2.getLast? with
    | Option.some sp =>
      ⟨if sp = 2 then Verdict.win else Verdict.loss, Option.some (i + 1),
        snapshotOf p1n p2n res.1, volleyMetricsOf stn⟩
    | Option.none => volleySimLoop nows plan p1Input (i + 1) fuel p1n p2n res.1 stn

/-- VolleyballRolloutSimulator.simulate: throwaway entities from the snapshot
(freeze timer reset to 0), initial side from the restored ball, then the loop. -/
noncomputable def volleySimulate (nows : ℕ → ℤ) (snapshot : WorldSnapshot) (steps : ℕ)
    (plan : Plan) (p1src : P1Source) : VolleyRolloutResult :=
  let b := restoreBall snapshot.ball
  volleySimLoop nows plan (resolveP1Input p1src) 0 steps
    (restoreSlime true snapshot.p1) (restoreSlime false snapshot.p2) b
    { prevSideLeft := decide (b.x < internalWidth / 2), netCrossings := 0, noCrossTicks := 0,
      maxNoCrossTicks := 0, ourSideTicks := 0, oppSideTicks := 0 }

/-- The neutral input source: no key is down. -/
def inputNone : InputSource := fun _ => false

/-- Input source with both of player 1's lateral keys held in the same tick. -/
def inputBothP1 : InputSource := fun code => code == "KeyA" || code == "KeyD"

/-- Player 1's contest-start slime state (x = internalWidth * 0.20, resting on
the ground line). -/
noncomputable def soccerStartP1 : Slime :=
  { isPlayer1 := true, x := 200, y := groundY, vx := 0, vy := 0 }

/-- Player 2's contest-start slime state (x = internalWidth * 0.80). -/
noncomputable def soccerStartP2 : Slime :=
  { isPlayer1 := false, x := 800, y := groundY, vx := 0, vy := 0 }

/-- The goal-contest ball at rest at the centre-top drop point
(BallSoccer.reset position), not frozen. -/
def centerDropBall : Ball :=
  { x := 500, y := 200, prevX := 500, prevY := 200, vx := 0, vy := 0, frozenUntil := 0 }

/-- A ball reaching the left wall just below the goal-opening top, inside the
crossbar's contact range: wall clamp and crossbar deflection both fire. -/
def wallGrazeBall : Ball :=
  { x := 10, y := 419, prevX := 10, prevY := 419, vx := -5, vy := 0, frozenUntil := 0 }

/-- A falling slime whose integrated position lands exactly on the ground
line, so the strict penetration clamp does not fire. -/
def exactLandingSlime : Slime :=
  { isPlayer1 := true, x := 200, y := 548.45, vx := 0, vy := 1 }

/-- The C4 ball after gravity and friction (velocity (0, 0.5445)), before
integration. -/
def c4ballA : Ball :=
  { x := 500, y := 200, prevX := 500, prevY := 200, vx := 0, vy := 0.5445, frozenUntil := 0 }

/-- The C4 ball after integration: position (500, 200.5445). -/
def c4ballB : Ball :=
  { x := 500, y := 200.5445, prevX := 500, prevY := 200, vx := 0, vy := 0.5445,
    frozenUntil := 0 }

/-- A falling slime whose integrated position strictly penetrates the ground
line, so the clamp fires. -/
def penetratingSlime : Slime :=
  { isPlayer1 := true, x := 200, y := 549, vx := 0, vy := 5 }

/-- The wall-graze ball after the left-wall clamp: position clamped to the
wall, horizontal velocity reflected to 4, now overlapping the left crossbar. -/
def wallGrazeBall1 : Ball :=
  { x := 13, y := 419, prevX := 10, prevY := 419, vx := 4, vy := 0, frozenUntil := 0 }

/-- The wall-graze ball after the left-crossbar deflection (distance to the
crossbar centre is sqrt 170). -/
noncomputable def wallGrazeBall2 : Ball :=
  { x := 273 / Real.sqrt 170, y := 420 - 21 / Real.sqrt 170, prevX := 10, prevY := 419,
    vx := 4 - 1216.8 / 170, vy := 93.6 / 170, frozenUntil := 0 }

/-- A ball fully past the left wall inside the goal opening. -/
def goalCrossBall : Ball :=
  { x := -14, y := 500, prevX := -2, prevY := 500, vx := -12, vy := 0, frozenUntil := 0 }

/-- A ball reaching the left wall above the goal opening and well clear of the
crossbar. -/
def wallBounceBall : Ball :=
  { x := 10, y := 100, prevX := 18, prevY := 100, vx := -8, vy := 0, frozenUntil := 0 }

/-- A ball fully past the right wall inside the goal opening. -/
def goalCrossBallR : Ball :=
  { x := 1014, y := 500, prevX := 1002, prevY := 500, vx := 12, vy := 0, frozenUntil := 0 }

/-- A ball reaching the right wall above the goal opening and well clear of
the right crossbar. -/
def wallBounceBallR : Ball :=
  { x := 990, y := 100, prevX := 982, prevY := 100, vx := 8, vy := 0, frozenUntil := 0 }

/-- A ball reaching the right wall just below the goal-opening top, so the
wall clamp lands it inside the right crossbar's contact circle. -/
def rightGrazeBall : Ball :=
  { x := 990, y := 419, prevX := 990, prevY := 419, vx := 5, vy := 0, frozenUntil := 0 }

/-- The right-graze ball after the right-wall clamp: position clamped to the
wall, horizontal velocity reflected to -4, overlapping the right crossbar. -/
def rightGrazeBall1 : Ball :=
  { x := 987, y := 419, prevX := 990, prevY := 419, vx := -4, vy := 0, frozenUntil := 0 }

/-- The right-graze ball after the right-crossbar deflection (distance to the
crossbar centre is sqrt 170). -/
noncomputable def rightGrazeBall2 : Ball :=
  { x := 1000 - 273 / Real.sqrt 170, y := 420 - 21 / Real.sqrt 170, prevX := 990, prevY := 419,
    vx := -4 + 1216.8 / 170, vy := 93.6 / 170, frozenUntil := 0 }

/-- A ball that crossed the left net-post plane between ticks at post height. -/
def leftCrossBall : Ball :=
  { x := 478, y := 500, prevX := 477, prevY := 500, vx := 1, vy := 0, frozenUntil := 0 }

/-- A ball that crossed the right net-post plane between ticks at post height. -/
def rightCrossBall : Ball :=
  { x := 522, y := 500, prevX := 523, prevY := 500, vx := -1, vy := 0, frozenUntil := 0 }

/-- A concrete rollout snapshot: both slimes at their start spots, ball at
the centre drop point with a small velocity. -/
def snapshot0 : WorldSnapshot :=
  { p1 := { x := 200, y := 550, vx := 0, vy := 0 },
    p2 := { x := 800, y := 550, vx := 0, vy := 0 },
    ball := { x := 500, y := 200, vx := 3, vy := -2 } }

/-- A slime moving right at its full lateral speed, resting on the ground. -/
def movingSlime : Slime := { isPlayer1 := false, x := 500, y := 550, vx := 8, vy := 0 }

/-- A stationary slime at the same spot. -/
def stillSlime : Slime := { isPlayer1 := false, x := 500, y := 550, vx := 0, vy := 0 }

/-- A ball with all kinematic fields zero (the resolver overwrites velocity). -/
def zeroBall : Ball :=
  { x := 0, y := 0, prevX := 0, prevY := 0, vx := 0, vy := 0, frozenUntil := 0 }

/-- Ball used to witness the circle-collision facts: centre (3,4) relative to
the obstacle, velocity (1,0). -/
def circleWitnessBall : Ball :=
  { x := 3, y := 4, prevX := 3, prevY := 4, vx := 1, vy := 0, frozenUntil := 0 }

/-- Slime with a concrete state whose centre the coincident ball shares. -/
def coincidentSlime : Slime := { isPlayer1 := true, x := 100, y := 300, vx := 2, vy := 3 }

/-- Ball placed exactly at coincidentSlime's centre. -/
def coincidentBall : Ball :=
  { x := 100, y := 300, prevX := 99, prevY := 299, vx := 5, vy := 6, frozenUntil := 0 }

/-! Helper lemmas about square roots. -/

theorem sqrt_le_of_le_sq {a c : ℝ} (hc : 0 ≤ c) (h : a ≤ c ^ 2) : Real.sqrt a ≤ c := by
  calc Real.sqrt a ≤ Real.sqrt (c ^ 2) := Real.sqrt_le_sqrt h
  _ = c := Real.sqrt_sq hc

theorem lt_sqrt_of_sq_lt {a c : ℝ} (hc : 0 ≤ c) (h : c ^ 2 < a) : c < Real.sqrt a := by
  have h2 := Real.sqrt_lt_sqrt (sq_nonneg c) h
  rwa [Real.sqrt_sq hc] at h2

theorem sqrt_lt_of_lt_sq {a c : ℝ} (ha : 0 ≤ a) (hc : 0 ≤ c) (h : a < c ^ 2) :
    Real.sqrt a < c := by
  have h2 := Real.sqrt_lt_sqrt ha h
  rwa [Real.sqrt_sq hc] at h2

theorem sq_le_of_sqrt_le {a c : ℝ} (ha : 0 ≤ a) (h : Real.sqrt a ≤ c) : a ≤ c ^ 2 := by
  have h0 := Real.sqrt_nonneg a
  have h2 : Real.sqrt a ^ 2 ≤ c ^ 2 := by nlinarith
  rwa [Real.sq_sqrt ha] at h2

theorem abs_le_sqrt_sq_add_sq (a b : ℝ) : |a| ≤ Real.sqrt (a ^ 2 + b ^ 2) := by
  rw [← Real.sqrt_sq_eq_abs]
  exact Real.sqrt_le_sqrt (by nlinarith [sq_nonneg b])

theorem le_sqrt_of_sq_le {a c : ℝ} (hc : 0 ≤ c) (h : c ^ 2 ≤ a) : c ≤ Real.sqrt a := by
  rw [← Real.sqrt_sq hc]
  exact Real.sqrt_le_sqrt h

/-! Lemmas about the speed clamp. -/

/-- When the speed is already within the cap, the clamp is the identity. -/
theorem clampBallSpeed_of_le {b : Ball} (h : speedSq b ≤ ballMaxSpeed ^ 2) :
    clampBallSpeed b = b := by
  unfold clampBallSpeed
  rw [if_neg]
  exact not_lt.mpr (sqrt_le_of_le_sq (by norm_num [ballMaxSpeed]) h)

/-- After the clamp the squared speed is at most the squared cap, for every
input velocity. -/
theorem speedSq_clampBallSpeed_le (b : Ball) :
    speedSq (clampBallSpeed b) ≤ ballMaxSpeed ^ 2 := by
  unfold clampBallSpeed speedSq
  by_cases h : Real.sqrt (b.vx ^ 2 + b.vy ^ 2) > ballMaxSpeed
  · rw [if_pos h]
    have hmax : (0:ℝ) < ballMaxSpeed := by norm_num [ballMaxSpeed]
    have hs0 : 0 < Real.sqrt (b.vx ^ 2 + b.vy ^ 2) := lt_trans hmax h
    have hpos : 0 < b.vx ^ 2 + b.vy ^ 2 := Real.sqrt_pos.mp hs0
    have hsq : Real.sqrt (b.vx ^ 2 + b.vy ^ 2) ^ 2 = b.vx ^ 2 + b.vy ^ 2 :=
      Real.sq_sqrt (by positivity)
    show (b.vx * (ballMaxSpeed / Real.sqrt (b.vx ^ 2 + b.vy ^ 2))) ^ 2 +
        (b.vy * (ballMaxSpeed / Real.sqrt (b.vx ^ 2 + b.vy ^ 2))) ^ 2 ≤ ballMaxSpeed ^ 2
    have expand : (b.vx * (ballMaxSpeed / Real.sqrt (b.vx ^ 2 + b.vy ^ 2))) ^ 2 +
        (b.vy * (ballMaxSpeed / Real.sqrt (b.vx ^ 2 + b.vy ^ 2))) ^ 2
        = (b.vx ^ 2 + b.vy ^ 2) * ballMaxSpeed ^ 2 / Real.sqrt (b.vx ^ 2 + b.vy ^ 2) ^ 2 := by
      ring
    rw [expand, hsq, mul_comm, mul_div_assoc, div_self (ne_of_gt hpos), mul_one]
  · rw [if_neg h]
    push_neg at h
    exact sq_le_of_sqrt_le (by positivity) h

/-! Speed behaviour of the collision and boundary stages. -/

/-- Algebraic core of the elastic-circle reflection against a unit normal:
the 1.8 coefficient yields a net squared-speed drop of 0.36 times the squared
normal component. -/
theorem reflect_speedSq (vx vy nx ny : ℝ) (hn : nx ^ 2 + ny ^ 2 = 1) :
    (vx - 1.8 * (vx * nx + vy * ny) * nx) ^ 2 + (vy - 1.8 * (vx * nx + vy * ny) * ny) ^ 2
      = (vx ^ 2 + vy ^ 2) - 0.36 * (vx * nx + vy * ny) ^ 2 := by
  linear_combination (3.24 * (vx * nx + vy * ny) ^ 2) * hn

/-- In a genuine circle contact the squared speed drops by exactly 0.36 times
the squared normal velocity component. -/
theorem resolveCircleCollision_speedSq_eq (b : Ball) (cx cy cr : ℝ)
    (h1 : Real.sqrt ((b.x - cx) ^ 2 + (b.y - cy) ^ 2) < ballRadius + cr)
    (h2 : Real.sqrt ((b.x - cx) ^ 2 + (b.y - cy) ^ 2) > 0) :
    speedSq (resolveCircleCollision b cx cy cr) =
      speedSq b - 0.36 * (b.vx * ((b.x - cx) / Real.sqrt ((b.x - cx) ^ 2 + (b.y - cy) ^ 2))
        + b.vy * ((b.y - cy) / Real.sqrt ((b.x - cx) ^ 2 + (b.y - cy) ^ 2))) ^ 2 := by
  simp only [resolveCircleCollision]
  rw [if_pos ⟨h1, h2⟩]
  have hdsq : Real.sqrt ((b.x - cx) ^ 2 + (b.y - cy) ^ 2) ^ 2
      = (b.x - cx) ^ 2 + (b.y - cy) ^ 2 := Real.sq_sqrt (by positivity)
  have hdne : Real.sqrt ((b.x - cx) ^ 2 + (b.y - cy) ^ 2) ≠ 0 := ne_of_gt h2
  have hsum : (b.x - cx) ^ 2 + (b.y - cy) ^ 2 ≠ 0 := by
    rw [← hdsq]; exact pow_ne_zero 2 hdne
  have hn : ((b.x - cx) / Real.sqrt ((b.x - cx) ^ 2 + (b.y - cy) ^ 2)) ^ 2
      + ((b.y - cy) / Real.sqrt ((b.x - cx) ^ 2 + (b.y - cy) ^ 2)) ^ 2 = 1 := by
    rw [div_pow, div_pow, div_add_div_same, hdsq, div_self hsum]
  exact reflect_speedSq b.vx b.vy _ _ hn

/-- The elastic-circle reflection never increases the ball's squared speed. -/
theorem speedSq_resolveCircleCollision_le (b : Ball) (cx cy cr : ℝ) :
    speedSq (resolveCircleCollision b cx cy cr) ≤ speedSq b := by
  by_cases h : Real.sqrt ((b.x - cx) ^ 2 + (b.y - cy) ^ 2) < ballRadius + cr
      ∧ Real.sqrt ((b.x - cx) ^ 2 + (b.y - cy) ^ 2) > 0
  · rw [resolveCircleCollision_speedSq_eq b cx cy cr h.1 h.2]
    nlinarith [sq_nonneg (b.vx * ((b.x - cx) / Real.sqrt ((b.x - cx) ^ 2 + (b.y - cy) ^ 2))
      + b.vy * ((b.y - cy) / Real.sqrt ((b.x - cx) ^ 2 + (b.y - cy) ^ 2)))]
  · simp only [resolveCircleCollision]
    rw [if_neg h]

/-- The top-wall reflection never increases the squared speed. -/
theorem speedSq_checkUniversalBoundaries_le (b : Ball) :
    speedSq (checkUniversalBoundaries b) ≤ speedSq b := by
  simp only [checkUniversalBoundaries]
  by_cases h : b.y < ballRadius
  · rw [if_pos h]
    show b.vx ^ 2 + (|b.vy| * 0.5) ^ 2 ≤ b.vx ^ 2 + b.vy ^ 2
    rw [mul_pow, sq_abs]
    nlinarith [sq_nonneg b.vy]
  · rw [if_neg h]

/-- The soccer ground bounce never increases the squared speed. -/
theorem speedSq_soccerGroundBounce_le (b : Ball) :
    speedSq (soccerGroundBounce b) ≤ speedSq b := by
  simp only [soccerGroundBounce]
  by_cases h : b.y + ballRadius > groundY
  · rw [if_pos h]
    show (b.vx * 0.95) ^ 2 + (b.vy * (-0.80)) ^ 2 ≤ b.vx ^ 2 + b.vy ^ 2
    nlinarith [sq_nonneg b.vx, sq_nonneg b.vy]
  · rw [if_neg h]

/-- The soccer left-wall stage never increases squared speed. -/
theorem speedSq_soccerLeftWall_le (b : Ball) : speedSq (soccerLeftWall b).1 ≤ speedSq b := by
  simp only [soccerLeftWall]
  split_ifs
  · show (b.vx * (-0.8)) ^ 2 + b.vy ^ 2 ≤ b.vx ^ 2 + b.vy ^ 2
    nlinarith [sq_nonneg b.vx]
  · exact le_refl _
  · exact le_refl _
  · exact le_refl _

/-- The soccer right-wall stage never increases squared speed. -/
theorem speedSq_soccerRightWall_le (b : Ball) : speedSq (soccerRightWall b).1 ≤ speedSq b := by
  simp only [soccerRightWall]
  split_ifs
  · show (b.vx * (-0.8)) ^ 2 + b.vy ^ 2 ≤ b.vx ^ 2 + b.vy ^ 2
    nlinarith [sq_nonneg b.vx]
  · exact le_refl _
  · exact le_refl _
  · exact le_refl _

/-- The whole soccer geometry pass never increases the ball's squared speed. -/
theorem speedSq_checkGameGeometrySoccer_le (b : Ball) :
    speedSq (checkGameGeometrySoccer b).1 ≤ speedSq b := by
  simp only [checkGameGeometrySoccer]
  calc speedSq (resolveCircleCollision
        (resolveCircleCollision (soccerRightWall (soccerLeftWall (soccerGroundBounce b)).1).1
          0 goalTopY CROSSBAR_R) internalWidth goalTopY CROSSBAR_R)
      ≤ speedSq (resolveCircleCollision (soccerRightWall
          (soccerLeftWall (soccerGroundBounce b)).1).1 0 goalTopY CROSSBAR_R) :=
        speedSq_resolveCircleCollision_le _ _ _ _
    _ ≤ speedSq (soccerRightWall (soccerLeftWall (soccerGroundBounce b)).1).1 :=
        speedSq_resolveCircleCollision_le _ _ _ _
    _ ≤ speedSq (soccerLeftWall (soccerGroundBounce b)).1 := speedSq_soccerRightWall_le _
    _ ≤ speedSq (soccerGroundBounce b) := speedSq_soccerLeftWall_le _
    _ ≤ speedSq b := speedSq_soccerGroundBounce_le _

/-- The volleyball side-wall reflections preserve squared speed. -/
theorem speedSq_volleySideWalls_le (b : Ball) : speedSq (volleySideWalls b) ≤ speedSq b := by
  simp only [volleySideWalls]
  split_ifs
  · show (b.vx * (-1) * (-1)) ^ 2 + b.vy ^ 2 ≤ b.vx ^ 2 + b.vy ^ 2
    nlinarith [sq_nonneg b.vx]
  · show (b.vx * (-1)) ^ 2 + b.vy ^ 2 ≤ b.vx ^ 2 + b.vy ^ 2
    nlinarith [sq_nonneg b.vx]
  · show (b.vx * (-1)) ^ 2 + b.vy ^ 2 ≤ b.vx ^ 2 + b.vy ^ 2
    nlinarith [sq_nonneg b.vx]
  · exact le_refl _

/-- The volleyball net stage never increases squared speed. -/
theorem speedSq_volleyNet_le (b : Ball) : speedSq (volleyNet b) ≤ speedSq b := by
  simp only [volleyNet]
  split_ifs
  · exact speedSq_resolveCircleCollision_le _ _ _ _
  · show (b.vx * (-0.7)) ^ 2 + b.vy ^ 2 ≤ b.vx ^ 2 + b.vy ^ 2
    nlinarith [sq_nonneg b.vx]
  · show (b.vx * (-0.7)) ^ 2 + b.vy ^ 2 ≤ b.vx ^ 2 + b.vy ^ 2
    nlinarith [sq_nonneg b.vx]
  · exact le_refl _
  · exact le_refl _

/-- The whole volleyball geometry pass never increases squared speed. -/
theorem speedSq_checkGameGeometryVolleyball_le (b : Ball) :
    speedSq (checkGameGeometryVolleyball b).1 ≤ speedSq b := by
  simp only [checkGameGeometryVolleyball]
  split_ifs
  · exact le_refl _
  · exact le_refl _
  · exact le_trans (speedSq_volleyNet_le _) (speedSq_volleySideWalls_le _)

/-- The soccer slime-hit resolver always ends at or below the cap. -/
theorem speedSq_resolveSlimeHitSoccer_le (sl : Slime) (c sn : ℝ) (st : Bool) (dx : ℝ)
    (b : Ball) : speedSq (resolveSlimeHitSoccer sl c sn st dx b) ≤ ballMaxSpeed ^ 2 :=
  speedSq_clampBallSpeed_le _

/-- The volleyball slime-hit resolver always ends at or below the cap. -/
theorem speedSq_resolveSlimeHitVolleyball_le (sl : Slime) (c sn : ℝ) (st : Bool) (dx : ℝ)
    (b : Ball) : speedSq (resolveSlimeHitVolleyball sl c sn st dx b) ≤ ballMaxSpeed ^ 2 :=
  speedSq_clampBallSpeed_le _

/-- The generic slime-hit resolver always ends at or below the cap. -/
theorem speedSq_resolveSlimeHitBase_le (sl : Slime) (c sn : ℝ) (st : Bool) (dx : ℝ)
    (b : Ball) : speedSq (resolveSlimeHitBase sl c sn st dx b) ≤ ballMaxSpeed ^ 2 :=
  speedSq_clampBallSpeed_le _

/-- One slime-collision check leaves the squared speed at or below the larger
of the incoming squared speed and the squared cap. -/
theorem speedSq_checkSlimeCollision_le (hit : HitResolver)
    (hhit : ∀ sl c sn st dx b, speedSq (hit sl c sn st dx b) ≤ ballMaxSpeed ^ 2)
    (sl : Slime) (b : Ball) :
    speedSq (checkSlimeCollision hit sl b) ≤ max (speedSq b) (ballMaxSpeed ^ 2) := by
  simp only [checkSlimeCollision]
  split_ifs
  · exact le_max_left _ _
  · exact le_trans (hhit _ _ _ _ _ _) (le_max_right _ _)
  · exact le_trans (hhit _ _ _ _ _ _) (le_max_right _ _)
  · exact le_max_left _ _

/-- Composition: after a full unfrozen ball update body, the squared speed is
at or below the squared cap. -/
theorem speedSq_ballUpdateBody_le (geom : Ball → Ball × List ℕ) (hit : HitResolver)
    (hgeom : ∀ x, speedSq (geom x).1 ≤ speedSq x)
    (hhit : ∀ sl c sn st dx b, speedSq (hit sl c sn st dx b) ≤ ballMaxSpeed ^ 2)
    (p1 p2 : Slime) (b : Ball) :
    speedSq (ballUpdateBody geom hit p1 p2 b).1 ≤ ballMaxSpeed ^ 2 := by
  simp only [ballUpdateBody]
  have h1 : speedSq (integratePos (clampBallSpeed (applyGravityFriction b)))
      ≤ ballMaxSpeed ^ 2 := speedSq_clampBallSpeed_le _
  have h2 := speedSq_checkUniversalBoundaries_le
    (integratePos (clampBallSpeed (applyGravityFriction b)))
  have h3 := hgeom (checkUniversalBoundaries
    (integratePos (clampBallSpeed (applyGravityFriction b))))
  have hg : speedSq (geom (checkUniversalBoundaries
      (integratePos (clampBallSpeed (applyGravityFriction b))))).1 ≤ ballMaxSpeed ^ 2 :=
    le_trans h3 (le_trans h2 h1)
  have h4 := speedSq_checkSlimeCollision_le hit hhit p1
    (geom (checkUniversalBoundaries (integratePos (clampBallSpeed (applyGravityFriction b))))).1
  have h5 := speedSq_checkSlimeCollision_le hit hhit p2
    (checkSlimeCollision hit p1 (geom (checkUniversalBoundaries
      (integratePos (clampBallSpeed (applyGravityFriction b))))).1)
  have h4b : speedSq (checkSlimeCollision hit p1 (geom (checkUniversalBoundaries
      (integratePos (clampBallSpeed (applyGravityFriction b))))).1) ≤ ballMaxSpeed ^ 2 :=
    le_trans h4 (max_le hg (le_refl _))
  exact le_trans h5 (max_le h4b (le_refl _))

/-- C1: for every pre-state of the ball and both slimes, one unfrozen ball
physics update (BallBase.update with either variant's geometry and hit
resolution) leaves the ball's speed magnitude sqrt(vx^2 + vy^2) at or below
the global cap CONFIG.ballMaxSpeed: the integration clamp, the
speed-non-increasing wall and obstacle reflections, and the re-clamp at the
end of every slime-collision response keep the post-update speed at or below
the cap for all inputs. -/
theorem C1_ball_speed_capped (now : ℤ) (p1 p2 : Slime) (b : Ball)
    (hfrozen : b.frozenUntil ≤ now) :
    ballSpeed (ballUpdateSoccer now p1 p2 b).1 ≤ ballMaxSpeed ∧
    ballSpeed (ballUpdateVolleyball now p1 p2 b).1 ≤ ballMaxSpeed := by
  have hnotlt : ¬ now < b.frozenUntil := not_lt.mpr hfrozen
  constructor
  · simp only [ballUpdateSoccer, ballUpdateWith, if_neg hnotlt, ballSpeed]
    exact sqrt_le_of_le_sq (by norm_num [ballMaxSpeed])
      (speedSq_ballUpdateBody_le _ _ speedSq_checkGameGeometrySoccer_le
        speedSq_resolveSlimeHitSoccer_le p1 p2 b)
  · simp only [ballUpdateVolleyball, ballUpdateWith, if_neg hnotlt, ballSpeed]
    exact sqrt_le_of_le_sq (by norm_num [ballMaxSpeed])
      (speedSq_ballUpdateBody_le _ _ speedSq_checkGameGeometryVolleyball_le
        speedSq_resolveSlimeHitVolleyball_le p1 p2 b)

/-- Witness for C1 at a concrete unfrozen pre-state. -/
theorem C1_ball_speed_capped_witness :
    ballSpeed (ballUpdateSoccer 0 soccerStartP1 soccerStartP2 centerDropBall).1 ≤ ballMaxSpeed ∧
    ballSpeed (ballUpdateVolleyball 0 soccerStartP1 soccerStartP2 centerDropBall).1
      ≤ ballMaxSpeed :=
  C1_ball_speed_capped 0 soccerStartP1 soccerStartP2 centerDropBall
    (by norm_num [centerDropBall])

/-- C10: the circular-obstacle reflection (crossbars and net cap), despite its
1.8 coefficient, never increases the ball's speed; in every genuine contact
the squared speed obeys the exact identity
speedSq after = speedSq before - 0.36 * (v dot n)^2. -/
theorem C10_circle_bounce_speed_nonincreasing (b : Ball) (cx cy cr : ℝ) :
    speedSq (resolveCircleCollision b cx cy cr) ≤ speedSq b ∧
    (Real.sqrt ((b.x - cx) ^ 2 + (b.y - cy) ^ 2) < ballRadius + cr →
      Real.sqrt ((b.x - cx) ^ 2 + (b.y - cy) ^ 2) > 0 →
      speedSq (resolveCircleCollision b cx cy cr) =
        speedSq b - 0.36 * (b.vx * ((b.x - cx) / Real.sqrt ((b.x - cx) ^ 2 + (b.y - cy) ^ 2))
          + b.vy * ((b.y - cy) / Real.sqrt ((b.x - cx) ^ 2 + (b.y - cy) ^ 2))) ^ 2) :=
  ⟨speedSq_resolveCircleCollision_le b cx cy cr,
   fun h1 h2 => resolveCircleCollision_speedSq_eq b cx cy cr h1 h2⟩

/-- Witness for C10 at a genuine concrete contact (distance 5 from the
obstacle centre, inside the contact radius 13). -/
theorem C10_circle_bounce_witness :
    speedSq (resolveCircleCollision circleWitnessBall 0 0 0) ≤ speedSq circleWitnessBall ∧
    speedSq (resolveCircleCollision circleWitnessBall 0 0 0) =
      speedSq circleWitnessBall -
        0.36 * (circleWitnessBall.vx * ((circleWitnessBall.x - 0) /
            Real.sqrt ((circleWitnessBall.x - 0) ^ 2 + (circleWitnessBall.y - 0) ^ 2))
          + circleWitnessBall.vy * ((circleWitnessBall.y - 0) /
            Real.sqrt ((circleWitnessBall.x - 0) ^ 2 + (circleWitnessBall.y - 0) ^ 2))) ^ 2 := by
  have h5 : Real.sqrt ((circleWitnessBall.x - 0) ^ 2 + (circleWitnessBall.y - 0) ^ 2) = 5 := by
    show Real.sqrt (((3:ℝ) - 0) ^ 2 + ((4:ℝ) - 0) ^ 2) = 5
    rw [show ((3:ℝ) - 0) ^ 2 + ((4:ℝ) - 0) ^ 2 = (5:ℝ) ^ 2 by norm_num]
    exact Real.sqrt_sq (by norm_num)
  exact ⟨(C10_circle_bounce_speed_nonincreasing circleWitnessBall 0 0 0).1,
    (C10_circle_bounce_speed_nonincreasing circleWitnessBall 0 0 0).2
      (by rw [h5]; norm_num [ballRadius]) (by rw [h5]; norm_num)⟩

/-- C8: when the ball's centre coincides exactly with a slime's centre, the
slime-collision check returns the ball unchanged (for any variant resolver),
and likewise the circle collision when the ball sits exactly at the obstacle
centre: degenerate zero-distance geometry is treated as no contact. -/
theorem C8_zero_distance_no_contact (hit : HitResolver) (sl : Slime) (b : Ball)
    (cx cy cr : ℝ) (hsx : b.x = sl.x) (hsy : b.y = sl.y) (hcx : b.x = cx) (hcy : b.y = cy) :
    checkSlimeCollision hit sl b = b ∧ resolveCircleCollision b cx cy cr = b := by
  have hd : Real.sqrt ((b.x - sl.x) ^ 2 + (b.y - sl.y) ^ 2) = 0 := by
    rw [hsx, hsy, sub_self, sub_self]
    simp
  have hd2 : Real.sqrt ((b.x - cx) ^ 2 + (b.y - cy) ^ 2) = 0 := by
    rw [hcx, hcy, sub_self, sub_self]
    simp
  constructor
  · simp only [checkSlimeCollision]
    rw [hd, if_pos (by norm_num [slimeRadius, ballRadius] :
        (0:ℝ) < slimeRadius + ballRadius), if_pos (Or.inl rfl)]
  · simp only [resolveCircleCollision]
    rw [hd2, if_neg]
    intro h
    exact lt_irrefl 0 h.2

/-- Witness for C8 at concretely coincident centres. -/
theorem C8_zero_distance_witness :
    checkSlimeCollision resolveSlimeHitSoccer coincidentSlime coincidentBall = coincidentBall ∧
    resolveCircleCollision coincidentBall 100 300 CROSSBAR_R = coincidentBall :=
  C8_zero_distance_no_contact resolveSlimeHitSoccer coincidentSlime coincidentBall
    100 300 CROSSBAR_R rfl rfl rfl rfl

/-! Slime movement lemmas. -/

/-- The soccer boundary clamp only modifies the horizontal position. -/
theorem applyBoundariesSoccer_vx (s : Slime) : (applyBoundariesSoccer s).vx = s.vx := by
  simp only [applyBoundariesSoccer]; split_ifs <;> rfl

theorem applyBoundariesSoccer_y (s : Slime) : (applyBoundariesSoccer s).y = s.y := by
  simp only [applyBoundariesSoccer]; split_ifs <;> rfl

theorem applyBoundariesSoccer_vy (s : Slime) : (applyBoundariesSoccer s).vy = s.vy := by
  simp only [applyBoundariesSoccer]; split_ifs <;> rfl

/-- The volleyball boundary clamp only modifies the horizontal position. -/
theorem applyBoundariesVolleyball_vx (s : Slime) : (applyBoundariesVolleyball s).vx = s.vx := by
  simp only [applyBoundariesVolleyball]; split_ifs <;> rfl

theorem applyBoundariesVolleyball_y (s : Slime) : (applyBoundariesVolleyball s).y = s.y := by
  simp only [applyBoundariesVolleyball]; split_ifs <;> rfl

theorem applyBoundariesVolleyball_vy (s : Slime) : (applyBoundariesVolleyball s).vy = s.vy := by
  simp only [applyBoundariesVolleyball]; split_ifs <;> rfl

/-- Lateral-velocity policy of SlimeBase.update: the right signal is written
last and overwrites the left one. -/
theorem slimeUpdateCore_vx (input : InputSource) (s : Slime) :
    (slimeUpdateCore input s).vx =
      (if rightSignal input s then slimeSpeed
       else if leftSignal input s then -slimeSpeed else 0) := by
  simp only [slimeUpdateCore]
  split_ifs <;> rfl

/-- The slime never ends a tick strictly below the ground line. -/
theorem slimeUpdateCore_y_le (input : InputSource) (s : Slime) :
    (slimeUpdateCore input s).y ≤ groundY := by
  simp only [slimeUpdateCore, groundY]
  split_ifs <;> dsimp only <;> linarith

/-- When the integrated position strictly penetrates the ground line, the
clamp fires: position is set on the line and vertical velocity zeroed. -/
theorem slimeUpdateCore_ground_clamp (input : InputSource) (s : Slime)
    (h : s.y + ((if jumpSignal input s = true ∧ s.y ≥ groundY then -slimeJumpForce else s.vy)
        + gravity) > groundY) :
    (slimeUpdateCore input s).y = groundY ∧ (slimeUpdateCore input s).vy = 0 := by
  simp only [groundY] at h
  simp only [slimeUpdateCore]
  rw [if_pos h]
  exact ⟨rfl, rfl⟩

/-- When the integrated position does not penetrate the ground line, position
and vertical velocity are the plainly integrated values. -/
theorem slimeUpdateCore_no_clamp (input : InputSource) (s : Slime)
    (h : ¬ s.y + ((if jumpSignal input s = true ∧ s.y ≥ groundY then -slimeJumpForce else s.vy)
        + gravity) > groundY) :
    (slimeUpdateCore input s).y =
      s.y + ((if jumpSignal input s = true ∧ s.y ≥ groundY then -slimeJumpForce else s.vy)
        + gravity) ∧
    (slimeUpdateCore input s).vy =
      (if jumpSignal input s = true ∧ s.y ≥ groundY then -slimeJumpForce else s.vy) + gravity := by
  simp only [groundY] at h
  simp only [slimeUpdateCore]
  rw [if_neg h]
  exact ⟨rfl, rfl⟩

/-- C3 (amended): the lateral velocity after SlimeBase.update follows
last-write-wins with the right signal written last: both signals held yields
+slimeSpeed, a single active signal yields the corresponding signed speed,
and no signal yields zero. -/
theorem C3_lateral_velocity_policy (input : InputSource) (s : Slime) :
    (slimeUpdateSoccer input s).vx =
      (if rightSignal input s then slimeSpeed
       else if leftSignal input s then -slimeSpeed else 0) ∧
    (slimeUpdateVolleyball input s).vx =
      (if rightSignal input s then slimeSpeed
       else if leftSignal input s then -slimeSpeed else 0) := by
  constructor
  · show (applyBoundariesSoccer (slimeUpdateCore input s)).vx = _
    rw [applyBoundariesSoccer_vx, slimeUpdateCore_vx]
  · show (applyBoundariesVolleyball (slimeUpdateCore input s)).vx = _
    rw [applyBoundariesVolleyball_vx, slimeUpdateCore_vx]

/-- Counterexample to C3 as stated: with both lateral signals of player 1's
side active in the same tick, the lateral velocity is +slimeSpeed, not the
claimed symmetric cancel to zero. -/
theorem C3_both_held_counterexample :
    (slimeUpdateSoccer inputBothP1 soccerStartP1).vx = slimeSpeed ∧
    (slimeUpdateSoccer inputBothP1 soccerStartP1).vx ≠ 0 := by
  have hvx : (slimeUpdateSoccer inputBothP1 soccerStartP1).vx = slimeSpeed := by
    show (applyBoundariesSoccer (slimeUpdateCore inputBothP1 soccerStartP1)).vx = slimeSpeed
    rw [applyBoundariesSoccer_vx, slimeUpdateCore_vx]
    have hr : rightSignal inputBothP1 soccerStartP1 = true := rfl
    rw [hr, if_pos rfl]
  exact ⟨hvx, by rw [hvx]; norm_num [slimeSpeed]⟩

/-- C9 (amended): after every SlimeBase.update the slime's vertical position
is at most the ground line; and whenever the integrated
position strictly exceeds the ground line, the clamp puts the slime exactly
on the line with zero vertical velocity.  A slime landing exactly on the line
keeps its vertical velocity (see the counterexample). -/
theorem C9_ground_line (input : InputSource) (s : Slime) :
    ((slimeUpdateSoccer input s).y ≤ groundY ∧ (slimeUpdateVolleyball input s).y ≤ groundY) ∧
    (s.y + ((if jumpSignal input s = true ∧ s.y ≥ groundY then -slimeJumpForce else s.vy)
        + gravity) > groundY →
      ((slimeUpdateSoccer input s).y = groundY ∧ (slimeUpdateSoccer input s).vy = 0) ∧
      ((slimeUpdateVolleyball input s).y = groundY ∧
        (slimeUpdateVolleyball input s).vy = 0)) := by
  refine ⟨⟨?_, ?_⟩, fun h => ?_⟩
  · show (applyBoundariesSoccer (slimeUpdateCore input s)).y ≤ groundY
    rw [applyBoundariesSoccer_y]
    exact slimeUpdateCore_y_le input s
  · show (applyBoundariesVolleyball (slimeUpdateCore input s)).y ≤ groundY
    rw [applyBoundariesVolleyball_y]
    exact slimeUpdateCore_y_le input s
  · have hc := slimeUpdateCore_ground_clamp input s h
    refine ⟨⟨?_, ?_⟩, ?_, ?_⟩
    · show (applyBoundariesSoccer (slimeUpdateCore input s)).y = groundY
      rw [applyBoundariesSoccer_y]; exact hc.1
    · show (applyBoundariesSoccer (slimeUpdateCore input s)).vy = 0
      rw [applyBoundariesSoccer_vy]; exact hc.2
    · show (applyBoundariesVolleyball (slimeUpdateCore input s)).y = groundY
      rw [applyBoundariesVolleyball_y]; exact hc.1
    · show (applyBoundariesVolleyball (slimeUpdateCore input s)).vy = 0
      rw [applyBoundariesVolleyball_vy]; exact hc.2

/-- Witness for C9 at a concretely penetrating landing. -/
theorem C9_ground_line_witness :
    (slimeUpdateSoccer inputNone penetratingSlime).y = groundY ∧
    (slimeUpdateSoccer inputNone penetratingSlime).vy = 0 ∧
    (slimeUpdateVolleyball inputNone penetratingSlime).y ≤ groundY := by
  have hjs : jumpSignal inputNone penetratingSlime = false := rfl
  have h := C9_ground_line inputNone penetratingSlime
  have hpen : penetratingSlime.y +
      ((if jumpSignal inputNone penetratingSlime = true ∧ penetratingSlime.y ≥ groundY
        then -slimeJumpForce else penetratingSlime.vy) + gravity) > groundY := by
    simp only [hjs, Bool.false_eq_true, false_and, if_false]
    norm_num [penetratingSlime, groundY, internalHeight, groundHeight, gravity]
  exact ⟨(h.2 hpen).1.1, (h.2 hpen).1.2, h.1.2⟩

/-- Counterexample to C9's second conjunct as stated: a slime landing exactly
on the ground line ends the tick touching the line with nonzero vertical
velocity. -/
theorem C9_exact_touch_counterexample :
    (slimeUpdateSoccer inputNone exactLandingSlime).y = groundY ∧
    (slimeUpdateSoccer inputNone exactLandingSlime).vy ≠ 0 := by
  have hjs : jumpSignal inputNone exactLandingSlime = false := rfl
  have hns : ¬ exactLandingSlime.y +
      ((if jumpSignal inputNone exactLandingSlime = true ∧ exactLandingSlime.y ≥ groundY
        then -slimeJumpForce else exactLandingSlime.vy) + gravity) > groundY := by
    simp only [hjs, Bool.false_eq_true, false_and, if_false]
    norm_num [exactLandingSlime, groundY, internalHeight, groundHeight, gravity]
  have h1 := slimeUpdateCore_no_clamp inputNone exactLandingSlime hns
  constructor
  · show (applyBoundariesSoccer (slimeUpdateCore inputNone exactLandingSlime)).y = groundY
    rw [applyBoundariesSoccer_y, h1.1]
    simp only [hjs, Bool.false_eq_true, false_and, if_false]
    norm_num [exactLandingSlime, groundY, internalHeight, groundHeight, gravity]
  · show (applyBoundariesSoccer (slimeUpdateCore inputNone exactLandingSlime)).vy ≠ 0
    rw [applyBoundariesSoccer_vy, h1.2]
    simp only [hjs, Bool.false_eq_true, false_and, if_false]
    norm_num [exactLandingSlime, gravity]

/-! No-contact helper lemmas used to evaluate concrete ticks. -/

/-- The circle collision is a no-op when the ball is at contact distance or
beyond. -/
theorem resolveCircleCollision_far (b : Ball) (cx cy cr : ℝ)
    (h : ballRadius + cr ≤ Real.sqrt ((b.x - cx) ^ 2 + (b.y - cy) ^ 2)) :
    resolveCircleCollision b cx cy cr = b := by
  simp only [resolveCircleCollision]
  rw [if_neg]
  intro hc
  exact absurd hc.1 (not_lt.mpr h)

/-- The circle collision is a no-op when already horizontally clear. -/
theorem resolveCircleCollision_far_x (b : Ball) (cx cy cr : ℝ)
    (h : ballRadius + cr ≤ |b.x - cx|) : resolveCircleCollision b cx cy cr = b :=
  resolveCircleCollision_far b cx cy cr (le_trans h (abs_le_sqrt_sq_add_sq _ _))

/-- The circle collision is a no-op when already vertically clear. -/
theorem resolveCircleCollision_far_y (b : Ball) (cx cy cr : ℝ)
    (h : ballRadius + cr ≤ |b.y - cy|) : resolveCircleCollision b cx cy cr = b := by
  refine resolveCircleCollision_far b cx cy cr (le_trans h ?_)
  rw [add_comm ((b.x - cx) ^ 2) ((b.y - cy) ^ 2)]
  exact abs_le_sqrt_sq_add_sq _ _

/-- The slime collision is a no-op when already horizontally clear. -/
theorem checkSlimeCollision_far_x (hit : HitResolver) (sl : Slime) (b : Ball)
    (h : slimeRadius + ballRadius ≤ |b.x - sl.x|) : checkSlimeCollision hit sl b = b := by
  simp only [checkSlimeCollision]
  rw [if_neg (not_lt.mpr (le_trans h (abs_le_sqrt_sq_add_sq _ _)))]

/-- The top wall is a no-op for a ball at or below radius height. -/
theorem checkUniversalBoundaries_no (b : Ball) (h : ballRadius ≤ b.y) :
    checkUniversalBoundaries b = b := by
  simp only [checkUniversalBoundaries]
  rw [if_neg (not_lt.mpr h)]

/-- The soccer ground bounce is a no-op above the ground band. -/
theorem soccerGroundBounce_no (b : Ball) (h : b.y + ballRadius ≤ groundY) :
    soccerGroundBounce b = b := by
  simp only [soccerGroundBounce]
  rw [if_neg (not_lt.mpr h)]

/-- The soccer left wall is a no-op for a ball clear of it. -/
theorem soccerLeftWall_no (b : Ball) (h : ballRadius ≤ b.x) :
    soccerLeftWall b = (b, []) := by
  simp only [soccerLeftWall]
  rw [if_neg (not_lt.mpr h)]

/-- The soccer right wall is a no-op for a ball clear of it. -/
theorem soccerRightWall_no (b : Ball) (h : b.x ≤ internalWidth - ballRadius) :
    soccerRightWall b = (b, []) := by
  simp only [soccerRightWall]
  rw [if_neg (not_lt.mpr h)]

/-- The whole soccer geometry pass is a no-op for a ball clear of the ground,
both walls and both crossbars. -/
theorem checkGameGeometrySoccer_calm (b : Ball)
    (hg : b.y + ballRadius ≤ groundY) (hl : ballRadius ≤ b.x)
    (hr : b.x ≤ internalWidth - ballRadius)
    (hc1 : ballRadius + CROSSBAR_R ≤ |b.x - 0|)
    (hc2 : ballRadius + CROSSBAR_R ≤ |b.x - internalWidth|) :
    checkGameGeometrySoccer b = (b, []) := by
  have h1 := soccerGroundBounce_no b hg
  have h2 := soccerLeftWall_no b hl
  have h3 := soccerRightWall_no b hr
  have h4 := resolveCircleCollision_far_x b 0 goalTopY CROSSBAR_R hc1
  have h5 := resolveCircleCollision_far_x b internalWidth goalTopY CROSSBAR_R hc2
  simp only [checkGameGeometrySoccer, h1, h2, h3, h4, h5, List.append_nil]

/-- Concrete evaluation of the C4 scenario: one unfrozen soccer ball tick
from rest at the centre-top drop point, clear of both slimes. -/
theorem c4_eval : ballUpdateSoccer 0 soccerStartP1 soccerStartP2 centerDropBall =
    (c4ballB, []) := by
  have hb1 : applyGravityFriction centerDropBall = c4ballA := by
    simp only [applyGravityFriction, centerDropBall, c4ballA]
    norm_num [friction, gravity]
  have hb2 : clampBallSpeed c4ballA = c4ballA := by
    apply clampBallSpeed_of_le
    norm_num [speedSq, ballMaxSpeed, c4ballA]
  have hb3 : integratePos c4ballA = c4ballB := by
    simp only [integratePos, c4ballA, c4ballB]
    norm_num
  have hb4 : checkUniversalBoundaries c4ballB = c4ballB := by
    apply checkUniversalBoundaries_no
    norm_num [ballRadius, c4ballB]
  have hb5 : checkGameGeometrySoccer c4ballB = (c4ballB, []) := by
    apply checkGameGeometrySoccer_calm
    · norm_num [ballRadius, groundY, internalHeight, groundHeight, c4ballB]
    · norm_num [ballRadius, c4ballB]
    · norm_num [ballRadius, internalWidth, c4ballB]
    · show ballRadius + CROSSBAR_R ≤ |(500:ℝ) - 0|
      rw [abs_of_nonneg (by norm_num : (0:ℝ) ≤ 500 - 0)]
      norm_num [ballRadius, CROSSBAR_R]
    · show ballRadius + CROSSBAR_R ≤ |(500:ℝ) - internalWidth|
      rw [abs_of_nonpos (by norm_num [internalWidth] : (500:ℝ) - internalWidth ≤ 0)]
      norm_num [ballRadius, CROSSBAR_R, internalWidth]
  have hb6 : checkSlimeCollision resolveSlimeHitSoccer soccerStartP1 c4ballB = c4ballB := by
    apply checkSlimeCollision_far_x
    show slimeRadius + ballRadius ≤ |(500:ℝ) - soccerStartP1.x|
    rw [show soccerStartP1.x = (200:ℝ) from rfl,
      abs_of_nonneg (by norm_num : (0:ℝ) ≤ 500 - 200)]
    norm_num [slimeRadius, ballRadius]
  have hb7 : checkSlimeCollision resolveSlimeHitSoccer soccerStartP2 c4ballB = c4ballB := by
    apply checkSlimeCollision_far_x
    show slimeRadius + ballRadius ≤ |(500:ℝ) - soccerStartP2.x|
    rw [show soccerStartP2.x = (800:ℝ) from rfl,
      abs_of_nonpos (by norm_num : (500:ℝ) - 800 ≤ 0)]
    norm_num [slimeRadius, ballRadius]
  show ballUpdateWith checkGameGeometrySoccer resolveSlimeHitSoccer 0
      soccerStartP1 soccerStartP2 centerDropBall = _
  rw [ballUpdateWith, if_neg (by norm_num [centerDropBall] :
      ¬ (0:ℤ) < centerDropBall.frozenUntil)]
  simp only [ballUpdateBody, hb1, hb2, hb3, hb4, hb5, hb6, hb7]

/-- Counterexample to C4 as stated: after the tick the vertical velocity is
0.5445, not the gravity constant 0.55, because friction multiplies the
velocity after gravity is added. -/
theorem C4_gravity_only_counterexample :
    (ballUpdateSoccer 0 soccerStartP1 soccerStartP2 centerDropBall).1.vy ≠ gravity := by
  rw [c4_eval]
  norm_num [gravity, c4ballB]

/-- C4 (amended): one unfrozen tick from rest at the centre-top drop point,
with no contact, leaves horizontal velocity exactly zero and makes vertical
velocity exactly gravity times friction (0.55 * 0.99 = 0.5445). -/
theorem C4_one_tick_from_rest :
    (ballUpdateSoccer 0 soccerStartP1 soccerStartP2 centerDropBall).1.vx = 0 ∧
    (ballUpdateSoccer 0 soccerStartP1 soccerStartP2 centerDropBall).1.vy =
      gravity * friction := by
  rw [c4_eval]
  norm_num [gravity, friction, c4ballB]

/-- The volleyball side walls are a no-op for a ball clear of both. -/
theorem volleySideWalls_no (b : Ball) (hl : ballRadius ≤ b.x)
    (hr : b.x ≤ internalWidth - ballRadius) : volleySideWalls b = b := by
  simp only [volleySideWalls]
  rw [if_neg (not_lt.mpr hl), if_neg (not_lt.mpr hr)]

/-- The two radius-inflated post planes are distinct. -/
theorem leftEdgeX_lt_rightEdgeX : leftEdgeX < rightEdgeX := by
  norm_num [leftEdgeX, rightEdgeX, netX, halfNetW, internalWidth, NET_W, ballRadius]

/-- C6: in the net contest, a ball at post height (centre at or below the
net-cap centre), clear of the ground and side walls, whose previous x was on
one side of a radius-inflated post plane while the current x has crossed it,
gets exactly one bounce: x is clamped back to the plane and the horizontal
velocity is reflected with restitution -0.7; the straddling crossing never
tunnels through unchanged (the post-state x differs from the crossing x). -/
theorem C6_net_post_crossing (b : Ball)
    (hg : b.y + ballRadius ≤ groundY)
    (hl : ballRadius ≤ b.x) (hr : b.x ≤ internalWidth - ballRadius)
    (hcap : capCenterY ≤ b.y) :
    (b.prevX ≤ leftEdgeX → leftEdgeX < b.x →
      checkGameGeometryVolleyball b =
        ({ b with x := leftEdgeX, vx := b.vx * (-0.7) }, []) ∧
      (checkGameGeometryVolleyball b).1.x ≠ b.x) ∧
    (rightEdgeX ≤ b.prevX → b.x < rightEdgeX →
      checkGameGeometryVolleyball b =
        ({ b with x := rightEdgeX, vx := b.vx * (-0.7) }, []) ∧
      (checkGameGeometryVolleyball b).1.x ≠ b.x) := by
  have hgeo : checkGameGeometryVolleyball b = (volleyNet b, []) := by
    simp only [checkGameGeometryVolleyball]
    rw [if_neg (not_lt.mpr hg), volleySideWalls_no b hl hr]
  constructor
  · intro hp hx
    have hnet : volleyNet b = { b with x := leftEdgeX, vx := b.vx * (-0.7) } := by
      simp only [volleyNet]
      rw [if_neg (fun hc => absurd hc.1 (not_lt.mpr hcap)), if_pos hcap, if_pos ⟨hp, hx⟩]
    refine ⟨by rw [hgeo, hnet], ?_⟩
    rw [hgeo, hnet]
    exact fun hcontra => absurd hcontra (ne_of_lt hx)
  · intro hp hx
    have hnet : volleyNet b = { b with x := rightEdgeX, vx := b.vx * (-0.7) } := by
      simp only [volleyNet]
      rw [if_neg (fun hc => absurd hc.1 (not_lt.mpr hcap)), if_pos hcap,
        if_neg (fun hc : b.prevX ≤ leftEdgeX ∧ leftEdgeX < b.x =>
          absurd (le_trans hp hc.1) (not_le.mpr leftEdgeX_lt_rightEdgeX)),
        if_pos ⟨hp, hx⟩]
    refine ⟨by rw [hgeo, hnet], ?_⟩
    rw [hgeo, hnet]
    exact fun hcontra => absurd hcontra.symm (ne_of_lt hx)

/-- Witness for C6: one concrete left-plane crossing and one concrete
right-plane crossing, each with its single bounce. -/
theorem C6_net_post_crossing_witness :
    checkGameGeometryVolleyball leftCrossBall =
      ({ leftCrossBall with x := leftEdgeX, vx := leftCrossBall.vx * (-0.7) }, []) ∧
    checkGameGeometryVolleyball rightCrossBall =
      ({ rightCrossBall with x := rightEdgeX, vx := rightCrossBall.vx * (-0.7) }, []) := by
  have hL := C6_net_post_crossing leftCrossBall
    (by norm_num [leftCrossBall, ballRadius, groundY, internalHeight, groundHeight])
    (by norm_num [leftCrossBall, ballRadius])
    (by norm_num [leftCrossBall, ballRadius, internalWidth])
    (by norm_num [leftCrossBall, capCenterY, netTopY, halfNetW, NET_W, groundY,
      internalHeight, groundHeight, NET_H])
  have hR := C6_net_post_crossing rightCrossBall
    (by norm_num [rightCrossBall, ballRadius, groundY, internalHeight, groundHeight])
    (by norm_num [rightCrossBall, ballRadius])
    (by norm_num [rightCrossBall, ballRadius, internalWidth])
    (by norm_num [rightCrossBall, capCenterY, netTopY, halfNetW, NET_W, groundY,
      internalHeight, groundHeight, NET_H])
  refine ⟨(hL.1 ?_ ?_).1, (hR.2 ?_ ?_).1⟩
  · norm_num [leftCrossBall, leftEdgeX, netX, halfNetW, internalWidth, NET_W, ballRadius]
  · norm_num [leftCrossBall, leftEdgeX, netX, halfNetW, internalWidth, NET_W, ballRadius]
  · norm_num [rightCrossBall, rightEdgeX, netX, halfNetW, internalWidth, NET_W, ballRadius]
  · norm_num [rightCrossBall, rightEdgeX, netX, halfNetW, internalWidth, NET_W, ballRadius]

/-- The soccer ground bounce never moves the ball horizontally. -/
theorem soccerGroundBounce_x (b : Ball) : (soccerGroundBounce b).x = b.x := by
  simp only [soccerGroundBounce]; split_ifs <;> rfl

/-- The soccer ground bounce keeps the ball at or below the goal-opening top. -/
theorem soccerGroundBounce_y_ge (b : Ball) (h : goalTopY ≤ b.y) :
    goalTopY ≤ (soccerGroundBounce b).y := by
  simp only [soccerGroundBounce]
  split_ifs
  · show goalTopY ≤ groundY - ballRadius
    norm_num [goalTopY, groundY, internalHeight, groundHeight, GOAL_H, ballRadius]
  · exact h

/-- C5 (amended): in the goal contest, a ball whose centre is fully past
either side wall while at or below the goal-opening top produces exactly the
one scoring event for the opposite side ([2] past the left wall, [1] past the
right wall); a ball reaching either wall above the opening produces no
scoring event, and - provided the wall-clamped position is not inside that
wall's crossbar contact circle - it bounces: position clamped to the wall and
horizontal velocity reflected with restitution -0.8. -/
theorem C5_goal_geometry (b : Ball) :
    (b.x < -ballRadius → goalTopY ≤ b.y → (checkGameGeometrySoccer b).2 = [2]) ∧
    (b.x > internalWidth + ballRadius → goalTopY ≤ b.y →
      (checkGameGeometrySoccer b).2 = [1]) ∧
    (b.x < ballRadius → b.y < goalTopY →
      (checkGameGeometrySoccer b).2 = [] ∧
      (ballRadius + CROSSBAR_R ≤
          Real.sqrt ((ballRadius - 0) ^ 2 + (b.y - goalTopY) ^ 2) →
        checkGameGeometrySoccer b = ({ b with x := ballRadius, vx := b.vx * (-0.8) }, []))) ∧
    (b.x > internalWidth - ballRadius → b.y < goalTopY →
      (checkGameGeometrySoccer b).2 = [] ∧
      (ballRadius + CROSSBAR_R ≤
          Real.sqrt ((internalWidth - ballRadius - internalWidth) ^ 2 +
            (b.y - goalTopY) ^ 2) →
        checkGameGeometrySoccer b =
          ({ b with x := internalWidth - ballRadius, vx := b.vx * (-0.8) }, []))) := by
  refine ⟨?_, ?_, ?_, ?_⟩
  · intro hx hy
    have hgx : (soccerGroundBounce b).x = b.x := soccerGroundBounce_x b
    have hgy : goalTopY ≤ (soccerGroundBounce b).y := soccerGroundBounce_y_ge b hy
    have hxr : (soccerGroundBounce b).x < ballRadius := by
      rw [hgx]
      have : -ballRadius < ballRadius := by norm_num [ballRadius]
      linarith
    have h2 : soccerLeftWall (soccerGroundBounce b) = (soccerGroundBounce b, [2]) := by
      simp only [soccerLeftWall]
      rw [if_pos hxr, if_neg (not_lt.mpr hgy), if_pos (by rw [hgx]; exact hx)]
    have hxw : (soccerGroundBounce b).x ≤ internalWidth - ballRadius := by
      rw [hgx]
      have : -ballRadius ≤ internalWidth - ballRadius := by norm_num [internalWidth, ballRadius]
      linarith
    have h3 : soccerRightWall (soccerGroundBounce b) = (soccerGroundBounce b, []) :=
      soccerRightWall_no _ hxw
    simp only [checkGameGeometrySoccer, h2, h3, List.append_nil]
  · intro hx hy
    have hgx : (soccerGroundBounce b).x = b.x := soccerGroundBounce_x b
    have hgy : goalTopY ≤ (soccerGroundBounce b).y := soccerGroundBounce_y_ge b hy
    have hxl : ballRadius ≤ (soccerGroundBounce b).x := by
      rw [hgx]
      have : ballRadius ≤ internalWidth + ballRadius := by norm_num [internalWidth, ballRadius]
      linarith
    have h2 : soccerLeftWall (soccerGroundBounce b) = (soccerGroundBounce b, []) :=
      soccerLeftWall_no _ hxl
    have h3 : soccerRightWall (soccerGroundBounce b) = (soccerGroundBounce b, [1]) := by
      simp only [soccerRightWall]
      rw [if_pos (by
          rw [hgx]
          have : internalWidth - ballRadius < internalWidth + ballRadius := by
            norm_num [internalWidth, ballRadius]
          linarith),
        if_neg (not_lt.mpr hgy), if_pos (by rw [hgx]; exact hx)]
    simp only [checkGameGeometrySoccer, h2, h3, List.nil_append]
  · intro hx hy
    have hgb : soccerGroundBounce b = b := by
      apply soccerGroundBounce_no
      have h420 : goalTopY = (420:ℝ) := by
        norm_num [goalTopY, groundY, internalHeight, groundHeight, GOAL_H]
      rw [h420] at hy
      norm_num [ballRadius, groundY, internalHeight, groundHeight]
      linarith
    have h2 : soccerLeftWall b = ({ b with x := ballRadius, vx := b.vx * (-0.8) }, []) := by
      simp only [soccerLeftWall]
      rw [if_pos hx, if_pos hy]
    have h3 : soccerRightWall ({ b with x := ballRadius, vx := b.vx * (-0.8) } : Ball) =
        ({ b with x := ballRadius, vx := b.vx * (-0.8) }, []) := by
      apply soccerRightWall_no
      show ballRadius ≤ internalWidth - ballRadius
      norm_num [internalWidth, ballRadius]
    constructor
    · simp only [checkGameGeometrySoccer, hgb, h2, h3, List.append_nil]
    · intro hfar
      have h4 : resolveCircleCollision ({ b with x := ballRadius, vx := b.vx * (-0.8) } : Ball)
          0 goalTopY CROSSBAR_R = { b with x := ballRadius, vx := b.vx * (-0.8) } :=
        resolveCircleCollision_far _ _ _ _ hfar
      have h5 : resolveCircleCollision ({ b with x := ballRadius, vx := b.vx * (-0.8) } : Ball)
          internalWidth goalTopY CROSSBAR_R = { b with x := ballRadius, vx := b.vx * (-0.8) } := by
        apply resolveCircleCollision_far_x
        show ballRadius + CROSSBAR_R ≤ |ballRadius - internalWidth|
        rw [abs_of_nonpos (by norm_num [ballRadius, internalWidth] :
          ballRadius - internalWidth ≤ 0)]
        norm_num [ballRadius, CROSSBAR_R, internalWidth]
      simp only [checkGameGeometrySoccer, hgb, h2, h3, h4, h5, List.append_nil]
  · intro hx hy
    have hgb : soccerGroundBounce b = b := by
      apply soccerGroundBounce_no
      have h420 : goalTopY = (420:ℝ) := by
        norm_num [goalTopY, groundY, internalHeight, groundHeight, GOAL_H]
      rw [h420] at hy
      norm_num [ballRadius, groundY, internalHeight, groundHeight]
      linarith
    have h2 : soccerLeftWall b = (b, []) := by
      apply soccerLeftWall_no
      have : ballRadius ≤ internalWidth - ballRadius := by norm_num [internalWidth, ballRadius]
      linarith
    have h3 : soccerRightWall b =
        ({ b with x := internalWidth - ballRadius, vx := b.vx * (-0.8) }, []) := by
      simp only [soccerRightWall]
      rw [if_pos hx, if_pos hy]
    constructor
    · simp only [checkGameGeometrySoccer, hgb, h2, h3, List.append_nil]
    · intro hfar
      have h4 : resolveCircleCollision
          ({ b with x := internalWidth - ballRadius, vx := b.vx * (-0.8) } : Ball)
          0 goalTopY CROSSBAR_R =
          { b with x := internalWidth - ballRadius, vx := b.vx * (-0.8) } := by
        apply resolveCircleCollision_far_x
        show ballRadius + CROSSBAR_R ≤ |internalWidth - ballRadius - 0|
        rw [abs_of_nonneg (by norm_num [internalWidth, ballRadius] :
          (0:ℝ) ≤ internalWidth - ballRadius - 0)]
        norm_num [ballRadius, CROSSBAR_R, internalWidth]
      have h5 : resolveCircleCollision
          ({ b with x := internalWidth - ballRadius, vx := b.vx * (-0.8) } : Ball)
          internalWidth goalTopY CROSSBAR_R =
          { b with x := internalWidth - ballRadius, vx := b.vx * (-0.8) } :=
        resolveCircleCollision_far _ _ _ _ hfar
      simp only [checkGameGeometrySoccer, hgb, h2, h3, h4, h5, List.append_nil]

/-- Counterexample to C5's bounce clause as stated: a ball reaching either
side wall just below the goal-opening top is wall-clamped into that wall's
crossbar contact circle, and the crossbar deflection immediately moves it off
the wall and overwrites the reflected velocity, so the final post-state has
neither the clamped wall position nor vx = -0.8 times the incoming vx. -/
theorem C5_crossbar_graze_counterexample :
    ((checkGameGeometrySoccer wallGrazeBall).1.x ≠ ballRadius ∧
      (checkGameGeometrySoccer wallGrazeBall).1.vx ≠ wallGrazeBall.vx * (-0.8)) ∧
    ((checkGameGeometrySoccer rightGrazeBall).1.x ≠ internalWidth - ballRadius ∧
      (checkGameGeometrySoccer rightGrazeBall).1.vx ≠ rightGrazeBall.vx * (-0.8)) := by
  have h170 : (0:ℝ) ≤ 170 := by norm_num
  have hssq : Real.sqrt 170 ^ 2 = 170 := Real.sq_sqrt h170
  have hs13 : (13:ℝ) ≤ Real.sqrt 170 := le_sqrt_of_sq_le (by norm_num) (by norm_num)
  have hs21 : Real.sqrt 170 < 21 := sqrt_lt_of_lt_sq h170 (by norm_num) (by norm_num)
  have hs0 : (0:ℝ) < Real.sqrt 170 := lt_of_lt_of_le (by norm_num) hs13
  have hsne : Real.sqrt 170 ≠ 0 := ne_of_gt hs0
  have hgoal420 : goalTopY = (420:ℝ) := by
    norm_num [goalTopY, groundY, internalHeight, groundHeight, GOAL_H]
  have h1 : soccerGroundBounce wallGrazeBall = wallGrazeBall :=
    soccerGroundBounce_no _
      (by norm_num [wallGrazeBall, ballRadius, groundY, internalHeight, groundHeight])
  have h2 : soccerLeftWall wallGrazeBall = (wallGrazeBall1, []) := by
    simp only [soccerLeftWall]
    rw [if_pos (by norm_num [wallGrazeBall, ballRadius] : wallGrazeBall.x < ballRadius),
        if_pos (by rw [hgoal420]; norm_num [wallGrazeBall] : wallGrazeBall.y < goalTopY)]
    simp only [wallGrazeBall, wallGrazeBall1, Ball.mk.injEq, ballRadius]
    norm_num
  have h3 : soccerRightWall wallGrazeBall1 = (wallGrazeBall1, []) :=
    soccerRightWall_no _ (by norm_num [wallGrazeBall1, ballRadius, internalWidth])
  have h4 : resolveCircleCollision wallGrazeBall1 0 goalTopY CROSSBAR_R = wallGrazeBall2 := by
    simp only [resolveCircleCollision, hgoal420]
    rw [show (wallGrazeBall1.x - 0) ^ 2 + (wallGrazeBall1.y - 420) ^ 2 = (170:ℝ) from by
        norm_num [wallGrazeBall1],
      if_pos ⟨by
        rw [show ballRadius + CROSSBAR_R = (21:ℝ) from by norm_num [ballRadius, CROSSBAR_R]]
        exact hs21, hs0⟩]
    simp only [wallGrazeBall1, wallGrazeBall2, Ball.mk.injEq, ballRadius, CROSSBAR_R]
    refine ⟨?_, ?_, by norm_num, by norm_num, ?_, ?_, by norm_num⟩
    · field_simp
      ring
    · field_simp
      ring
    · field_simp
      ring_nf
    · field_simp
      ring_nf
  have hx2 : wallGrazeBall2.x = 273 / Real.sqrt 170 := rfl
  have hxle : wallGrazeBall2.x ≤ 21 := by
    rw [hx2, div_le_iff hs0]
    nlinarith [hs13]
  have hxpos : (0:ℝ) < wallGrazeBall2.x := by
    rw [hx2]
    positivity
  have h5 : resolveCircleCollision wallGrazeBall2 internalWidth goalTopY CROSSBAR_R =
      wallGrazeBall2 := by
    apply resolveCircleCollision_far_x
    rw [abs_of_nonpos (by norm_num [internalWidth]; linarith :
      wallGrazeBall2.x - internalWidth ≤ 0)]
    norm_num [internalWidth, ballRadius, CROSSBAR_R]
    linarith
  have hfull : (checkGameGeometrySoccer wallGrazeBall).1 = wallGrazeBall2 := by
    simp only [checkGameGeometrySoccer, h1, h2, h3, h4, h5]
  have h1r : soccerGroundBounce rightGrazeBall = rightGrazeBall :=
    soccerGroundBounce_no _
      (by norm_num [rightGrazeBall, ballRadius, groundY, internalHeight, groundHeight])
  have h2r : soccerLeftWall rightGrazeBall = (rightGrazeBall, []) :=
    soccerLeftWall_no _ (by norm_num [rightGrazeBall, ballRadius])
  have h3r : soccerRightWall rightGrazeBall = (rightGrazeBall1, []) := by
    simp only [soccerRightWall]
    rw [if_pos (by norm_num [rightGrazeBall, internalWidth, ballRadius] :
          rightGrazeBall.x > internalWidth - ballRadius),
        if_pos (by rw [hgoal420]; norm_num [rightGrazeBall] : rightGrazeBall.y < goalTopY)]
    simp only [rightGrazeBall, rightGrazeBall1, Ball.mk.injEq, ballRadius, internalWidth]
    norm_num
  have h4r : resolveCircleCollision rightGrazeBall1 0 goalTopY CROSSBAR_R = rightGrazeBall1 := by
    apply resolveCircleCollision_far_x
    show ballRadius + CROSSBAR_R ≤ |rightGrazeBall1.x - 0|
    rw [show rightGrazeBall1.x = (987:ℝ) from rfl,
      abs_of_nonneg (by norm_num : (0:ℝ) ≤ 987 - 0)]
    norm_num [ballRadius, CROSSBAR_R]
  have h5r : resolveCircleCollision rightGrazeBall1 internalWidth goalTopY CROSSBAR_R =
      rightGrazeBall2 := by
    simp only [resolveCircleCollision, hgoal420, internalWidth]
    rw [show (rightGrazeBall1.x - 1000) ^ 2 + (rightGrazeBall1.y - 420) ^ 2 = (170:ℝ) from by
        norm_num [rightGrazeBall1],
      if_pos ⟨by
        rw [show ballRadius + CROSSBAR_R = (21:ℝ) from by norm_num [ballRadius, CROSSBAR_R]]
        exact hs21, hs0⟩]
    simp only [rightGrazeBall1, rightGrazeBall2, Ball.mk.injEq, ballRadius, CROSSBAR_R]
    refine ⟨?_, ?_, by norm_num, by norm_num, ?_, ?_, by norm_num⟩
    · field_simp
      ring
    · field_simp
      ring
    · field_simp
      ring_nf
    · field_simp
      ring_nf
  have hfullr : (checkGameGeometrySoccer rightGrazeBall).1 = rightGrazeBall2 := by
    simp only [checkGameGeometrySoccer, h1r, h2r, h3r, h4r, h5r]
  have hgt : (13:ℝ) < 273 / Real.sqrt 170 := by
    rw [lt_div_iff hs0]
    nlinarith [hs21]
  refine ⟨⟨?_, ?_⟩, ?_, ?_⟩
  · rw [hfull, hx2]
    rw [show ballRadius = (13:ℝ) from by norm_num [ballRadius]]
    exact ne_of_gt hgt
  · rw [hfull]
    rw [show wallGrazeBall2.vx = 4 - 1216.8 / 170 from rfl]
    norm_num [wallGrazeBall]
  · rw [hfullr]
    rw [show rightGrazeBall2.x = 1000 - 273 / Real.sqrt 170 from rfl,
      show internalWidth - ballRadius = (987:ℝ) from by norm_num [internalWidth, ballRadius]]
    have hlt : 1000 - 273 / Real.sqrt 170 < 987 := by linarith
    exact ne_of_lt hlt
  · rw [hfullr]
    rw [show rightGrazeBall2.vx = -4 + 1216.8 / 170 from rfl]
    norm_num [rightGrazeBall]

/-- Witness for C5: concrete scoring crossings and concrete clean bounces at
both side walls. -/
theorem C5_goal_geometry_witness :
    (checkGameGeometrySoccer goalCrossBall).2 = [2] ∧
    (checkGameGeometrySoccer goalCrossBallR).2 = [1] ∧
    checkGameGeometrySoccer wallBounceBall =
      ({ wallBounceBall with x := ballRadius, vx := wallBounceBall.vx * (-0.8) }, []) ∧
    checkGameGeometrySoccer wallBounceBallR =
      ({ wallBounceBallR with x := internalWidth - ballRadius, vx := wallBounceBallR.vx * (-0.8) }, []) := by
  have hS := C5_goal_geometry goalCrossBall
  have hSR := C5_goal_geometry goalCrossBallR
  have hB := C5_goal_geometry wallBounceBall
  have hBR := C5_goal_geometry wallBounceBallR
  refine ⟨hS.1 (by norm_num [goalCrossBall, ballRadius])
    (by norm_num [goalCrossBall, goalTopY, groundY, internalHeight, groundHeight, GOAL_H]),
    hSR.2.1 (by norm_num [goalCrossBallR, internalWidth, ballRadius])
    (by norm_num [goalCrossBallR, goalTopY, groundY, internalHeight, groundHeight, GOAL_H]),
    ?_, ?_⟩
  · refine (hB.2.2.1 (by norm_num [wallBounceBall, ballRadius])
      (by norm_num [wallBounceBall, goalTopY, groundY, internalHeight, groundHeight,
        GOAL_H])).2 ?_
    apply le_sqrt_of_sq_le (by norm_num [ballRadius, CROSSBAR_R])
    norm_num [ballRadius, CROSSBAR_R, wallBounceBall, goalTopY, groundY, internalHeight,
      groundHeight, GOAL_H]
  · refine (hBR.2.2.2 (by norm_num [wallBounceBallR, internalWidth, ballRadius])
      (by norm_num [wallBounceBallR, goalTopY, groundY, internalHeight, groundHeight,
        GOAL_H])).2 ?_
    apply le_sqrt_of_sq_le (by norm_num [ballRadius, CROSSBAR_R])
    norm_num [ballRadius, CROSSBAR_R, internalWidth, wallBounceBallR, goalTopY, groundY,
      internalHeight, groundHeight, GOAL_H]

/-! Momentum-inheritance lemmas (C7). -/

/-- Off-centre, non-stomp branch of the soccer slime-hit resolver. -/
theorem resolveSlimeHitSoccer_offcenter (sl : Slime) (c sn dx : ℝ) (b : Ball)
    (hoff : ¬ |dx| < slimeRadius * 0.10) :
    resolveSlimeHitSoccer sl c sn false dx b =
      clampBallSpeed { b with vx := c * popForce + sl.vx * 1.25,
                              vy := min (sn * popForce + sl.vy * 1.1) 15 } := by
  simp only [resolveSlimeHitSoccer, Bool.false_eq_true, if_false, if_neg hoff]

/-- Off-centre, non-stomp branch of the volleyball slime-hit resolver. -/
theorem resolveSlimeHitVolleyball_offcenter (sl : Slime) (c sn dx : ℝ) (b : Ball)
    (hoff : ¬ |dx| < slimeRadius * 0.10) :
    resolveSlimeHitVolleyball sl c sn false dx b =
      clampBallSpeed { b with vx := c * popForce + sl.vx * 1.5,
                              vy := min (sn * popForce + sl.vy * 1.1) 15 } := by
  simp only [resolveSlimeHitVolleyball, Bool.false_eq_true, if_false, if_neg hoff]

/-- Horizontal velocity after the speed clamp, by clamp case. -/
theorem clampBallSpeed_vx (b : Ball) : (clampBallSpeed b).vx =
    if Real.sqrt (b.vx ^ 2 + b.vy ^ 2) > ballMaxSpeed
    then b.vx * (ballMaxSpeed / Real.sqrt (b.vx ^ 2 + b.vy ^ 2)) else b.vx := by
  simp only [clampBallSpeed]
  split_ifs <;> rfl

set_option maxHeartbeats 1600000 in
/-- C7 (amended): for an off-centre, non-stomp contact on the slime's leading
side (ball centre to the right of the slime centre, dx > 0), the resolver
with a slime moving right at full lateral speed produces a strictly positive
ball horizontal velocity of strictly larger magnitude than with a stationary
slime under identical contact geometry, in both the goal contest (1.25x
inheritance) and the net contest (1.5x inheritance). -/
theorem C7_momentum_inheritance (b : Ball) (slM slS : Slime) (dx dy : ℝ)
    (hM : slM.vx = slimeSpeed) (hMy : slM.vy = 0) (hS : slS.vx = 0) (hSy : slS.vy = 0)
    (hdy : dy ≤ 0) (hdx : slimeRadius * 0.10 ≤ dx)
    (hdist : Real.sqrt (dx ^ 2 + dy ^ 2) < slimeRadius + ballRadius)
    (hnstomp : ¬ dy / Real.sqrt (dx ^ 2 + dy ^ 2) < -0.8) :
    (0 < (resolveSlimeHitSoccer slM (dx / Real.sqrt (dx ^ 2 + dy ^ 2))
        (dy / Real.sqrt (dx ^ 2 + dy ^ 2)) false dx b).vx ∧
      |(resolveSlimeHitSoccer slS (dx / Real.sqrt (dx ^ 2 + dy ^ 2))
        (dy / Real.sqrt (dx ^ 2 + dy ^ 2)) false dx b).vx| <
      |(resolveSlimeHitSoccer slM (dx / Real.sqrt (dx ^ 2 + dy ^ 2))
        (dy / Real.sqrt (dx ^ 2 + dy ^ 2)) false dx b).vx|) ∧
    (0 < (resolveSlimeHitVolleyball slM (dx / Real.sqrt (dx ^ 2 + dy ^ 2))
        (dy / Real.sqrt (dx ^ 2 + dy ^ 2)) false dx b).vx ∧
      |(resolveSlimeHitVolleyball slS (dx / Real.sqrt (dx ^ 2 + dy ^ 2))
        (dy / Real.sqrt (dx ^ 2 + dy ^ 2)) false dx b).vx| <
      |(resolveSlimeHitVolleyball slM (dx / Real.sqrt (dx ^ 2 + dy ^ 2))
        (dy / Real.sqrt (dx ^ 2 + dy ^ 2)) false dx b).vx|) := by
  have hdx5 : (5:ℝ) ≤ dx := by
    have : slimeRadius * 0.10 = (5:ℝ) := by norm_num [slimeRadius]
    linarith [hdx, this.symm.le, this.le]
  have hdxpos : (0:ℝ) < dx := by linarith
  have habs : |dx| = dx := abs_of_pos hdxpos
  have hdled : dx ≤ Real.sqrt (dx ^ 2 + dy ^ 2) :=
    le_trans (le_abs_self dx) (abs_le_sqrt_sq_add_sq dx dy)
  have hd0 : (0:ℝ) < Real.sqrt (dx ^ 2 + dy ^ 2) := lt_of_lt_of_le hdxpos hdled
  have hdne : Real.sqrt (dx ^ 2 + dy ^ 2) ≠ 0 := ne_of_gt hd0
  have hdsq : Real.sqrt (dx ^ 2 + dy ^ 2) ^ 2 = dx ^ 2 + dy ^ 2 := Real.sq_sqrt (by positivity)
  set d := Real.sqrt (dx ^ 2 + dy ^ 2) with hddef
  set c := dx / d with hcdef
  set sn := dy / d with hsndef
  have hc0 : (0:ℝ) < c := div_pos hdxpos hd0
  have hc1 : c ≤ 1 := (div_le_one hd0).mpr hdled
  have hsnd : sn * d = dy := div_mul_cancel₀ dy hdne
  have hsn0 : sn ≤ 0 := by
    by_contra hpos
    push_neg at hpos
    nlinarith [mul_pos hpos hd0]
  have hsum : dx ^ 2 + dy ^ 2 ≠ 0 := by
    rw [← hdsq]
    exact pow_ne_zero 2 hdne
  have hcsq : c ^ 2 + sn ^ 2 = 1 := by
    rw [hcdef, hsndef, div_pow, div_pow, div_add_div_same, hdsq, div_self hsum]
  have hoff : ¬ |dx| < slimeRadius * 0.10 := not_lt.mpr (by rw [habs]; exact hdx)
  have hminM : min (sn * popForce + (0:ℝ) * 1.1) 15 = 12 * sn := by
    rw [min_eq_left (by norm_num [popForce]; nlinarith [hsn0] :
      sn * popForce + (0:ℝ) * 1.1 ≤ 15)]
    norm_num [popForce]
    ring
  -- soccer, moving slime: no clamp, vx = 12c + 10
  have hvxM : (resolveSlimeHitSoccer slM c sn false dx b).vx = 12 * c + 10 := by
    rw [resolveSlimeHitSoccer_offcenter slM c sn dx b hoff]
    rw [clampBallSpeed_of_le (by
      show (c * popForce + slM.vx * 1.25) ^ 2 +
        (min (sn * popForce + slM.vy * 1.1) 15) ^ 2 ≤ ballMaxSpeed ^ 2
      rw [hM, hMy, hminM]
      norm_num [popForce, slimeSpeed, ballMaxSpeed]
      nlinarith [hcsq, hc1, hsn0])]
    show c * popForce + slM.vx * 1.25 = 12 * c + 10
    rw [hM]
    norm_num [popForce, slimeSpeed]
    ring
  -- soccer, stationary slime: no clamp, vx = 12c
  have hvxMS : (resolveSlimeHitSoccer slS c sn false dx b).vx = 12 * c := by
    rw [resolveSlimeHitSoccer_offcenter slS c sn dx b hoff]
    rw [clampBallSpeed_of_le (by
      show (c * popForce + slS.vx * 1.25) ^ 2 +
        (min (sn * popForce + slS.vy * 1.1) 15) ^ 2 ≤ ballMaxSpeed ^ 2
      rw [hS, hSy, hminM]
      norm_num [popForce, ballMaxSpeed]
      nlinarith [hcsq, hc1, hsn0])]
    show c * popForce + slS.vx * 1.25 = 12 * c
    rw [hS]
    norm_num [popForce]
    ring
  -- volleyball, stationary slime: no clamp, vx = 12c
  have hvxVS : (resolveSlimeHitVolleyball slS c sn false dx b).vx = 12 * c := by
    rw [resolveSlimeHitVolleyball_offcenter slS c sn dx b hoff]
    rw [clampBallSpeed_of_le (by
      show (c * popForce + slS.vx * 1.5) ^ 2 +
        (min (sn * popForce + slS.vy * 1.1) 15) ^ 2 ≤ ballMaxSpeed ^ 2
      rw [hS, hSy, hminM]
      norm_num [popForce, ballMaxSpeed]
      nlinarith [hcsq, hc1, hsn0])]
    show c * popForce + slS.vx * 1.5 = 12 * c
    rw [hS]
    norm_num [popForce]
    ring
  -- volleyball, moving slime: possibly clamped, but vx stays above 12c
  have hVrec : resolveSlimeHitVolleyball slM c sn false dx b =
      clampBallSpeed { b with vx := 12 * c + 12, vy := 12 * sn } := by
    rw [resolveSlimeHitVolleyball_offcenter slM c sn dx b hoff]
    rw [hM, hMy, hminM]
    rw [show slimeSpeed * 1.5 = (12:ℝ) from by norm_num [slimeSpeed]]
    rw [show c * popForce + 12 = 12 * c + 12 from by norm_num [popForce]; ring]
  have hvxV : 0 < (clampBallSpeed { b with vx := 12 * c + 12, vy := 12 * sn } : Ball).vx ∧
      12 * c < (clampBallSpeed { b with vx := 12 * c + 12, vy := 12 * sn } : Ball).vx := by
    rw [clampBallSpeed_vx]
    dsimp only
    split_ifs with hcl
    · have hs0 : (0:ℝ) < Real.sqrt ((12 * c + 12) ^ 2 + (12 * sn) ^ 2) :=
        lt_trans (by norm_num [ballMaxSpeed]) hcl
      have hsle : Real.sqrt ((12 * c + 12) ^ 2 + (12 * sn) ^ 2) ≤ 24 := by
        apply sqrt_le_of_le_sq (by norm_num)
        nlinarith [hcsq, hc1]
      have hfrac : ballMaxSpeed / 24 ≤
          ballMaxSpeed / Real.sqrt ((12 * c + 12) ^ 2 + (12 * sn) ^ 2) :=
        div_le_div_of_nonneg_left (by norm_num [ballMaxSpeed]) hs0 hsle
      have hbase : 12 * c < (12 * c + 12) * (ballMaxSpeed / 24) := by
        norm_num [ballMaxSpeed]
        nlinarith [hc1, hc0]
      have hstep : (12 * c + 12) * (ballMaxSpeed / 24) ≤
          (12 * c + 12) * (ballMaxSpeed / Real.sqrt ((12 * c + 12) ^ 2 + (12 * sn) ^ 2)) :=
        mul_le_mul_of_nonneg_left hfrac (by nlinarith [hc0])
      constructor
      · apply mul_pos
        · nlinarith [hc0]
        · exact div_pos (by norm_num [ballMaxSpeed]) hs0
      · exact lt_of_lt_of_le hbase hstep
    · constructor
      · nlinarith [hc0]
      · nlinarith [hc0]
  refine ⟨⟨?_, ?_⟩, ?_, ?_⟩
  · rw [hvxM]
    nlinarith [hc0]
  · rw [hvxM, hvxMS, abs_of_nonneg (by nlinarith [hc0] : (0:ℝ) ≤ 12 * c),
      abs_of_pos (by nlinarith [hc0] : (0:ℝ) < 12 * c + 10)]
    linarith
  · rw [hVrec]
    exact hvxV.1
  · rw [hVrec, hvxVS, abs_of_nonneg (by nlinarith [hc0] : (0:ℝ) ≤ 12 * c),
      abs_of_pos hvxV.1]
    exact hvxV.2

/-- Counterexample to C7 as stated: at an off-centre, non-stomp contact on
the slime's trailing side (dx = -24, dy = -7, distance 25, contact normal
(-24/25, -7/25), sine -0.28 which is above the -0.8 stomp cutoff), the soccer
resolver with the slime moving right at full speed yields vx = -1.52 < 0, of
smaller magnitude than the stationary slime's -11.52. -/
theorem C7_trailing_side_counterexample :
    (resolveSlimeHitSoccer movingSlime (-24/25) (-7/25) false (-24) zeroBall).vx < 0 ∧
    |(resolveSlimeHitSoccer movingSlime (-24/25) (-7/25) false (-24) zeroBall).vx| <
      |(resolveSlimeHitSoccer stillSlime (-24/25) (-7/25) false (-24) zeroBall).vx| := by
  have hoff : ¬ |(-24:ℝ)| < slimeRadius * 0.10 := by
    rw [abs_of_nonpos (by norm_num : (-24:ℝ) ≤ 0)]
    norm_num [slimeRadius]
  have hminM : min ((-7/25 : ℝ) * popForce + movingSlime.vy * 1.1) 15 = -3.36 := by
    rw [show ((-7/25 : ℝ) * popForce + movingSlime.vy * 1.1) = -3.36 from by
      norm_num [popForce, movingSlime]]
    rw [min_eq_left (by norm_num : (-3.36:ℝ) ≤ 15)]
  have hminS : min ((-7/25 : ℝ) * popForce + stillSlime.vy * 1.1) 15 = -3.36 := by
    rw [show ((-7/25 : ℝ) * popForce + stillSlime.vy * 1.1) = -3.36 from by
      norm_num [popForce, stillSlime]]
    rw [min_eq_left (by norm_num : (-3.36:ℝ) ≤ 15)]
  have hm : (resolveSlimeHitSoccer movingSlime (-24/25) (-7/25) false (-24) zeroBall).vx
      = -1.52 := by
    rw [resolveSlimeHitSoccer_offcenter movingSlime (-24/25) (-7/25) (-24) zeroBall hoff]
    rw [clampBallSpeed_of_le (by
      show ((-24/25 : ℝ) * popForce + movingSlime.vx * 1.25) ^ 2 +
        (min ((-7/25 : ℝ) * popForce + movingSlime.vy * 1.1) 15) ^ 2 ≤ ballMaxSpeed ^ 2
      rw [hminM]
      norm_num [popForce, movingSlime, ballMaxSpeed])]
    show (-24/25 : ℝ) * popForce + movingSlime.vx * 1.25 = -1.52
    norm_num [popForce, movingSlime]
  have hs : (resolveSlimeHitSoccer stillSlime (-24/25) (-7/25) false (-24) zeroBall).vx
      = -11.52 := by
    rw [resolveSlimeHitSoccer_offcenter stillSlime (-24/25) (-7/25) (-24) zeroBall hoff]
    rw [clampBallSpeed_of_le (by
      show ((-24/25 : ℝ) * popForce + stillSlime.vx * 1.25) ^ 2 +
        (min ((-7/25 : ℝ) * popForce + stillSlime.vy * 1.1) 15) ^ 2 ≤ ballMaxSpeed ^ 2
      rw [hminS]
      norm_num [popForce, stillSlime, ballMaxSpeed])]
    show (-24/25 : ℝ) * popForce + stillSlime.vx * 1.25 = -11.52
    norm_num [popForce, stillSlime]
  rw [hm, hs]
  rw [abs_of_nonpos (by norm_num : (-1.52:ℝ) ≤ 0),
    abs_of_nonpos (by norm_num : (-11.52:ℝ) ≤ 0)]
  norm_num

/-- Witness for C7 at a concrete leading-side contact (dx = 30, dy = -40,
distance 50). -/
theorem C7_momentum_inheritance_witness :
    (0 < (resolveSlimeHitSoccer movingSlime (30 / Real.sqrt ((30:ℝ) ^ 2 + (-40:ℝ) ^ 2))
        ((-40) / Real.sqrt ((30:ℝ) ^ 2 + (-40:ℝ) ^ 2)) false 30 zeroBall).vx ∧
      |(resolveSlimeHitSoccer stillSlime (30 / Real.sqrt ((30:ℝ) ^ 2 + (-40:ℝ) ^ 2))
        ((-40) / Real.sqrt ((30:ℝ) ^ 2 + (-40:ℝ) ^ 2)) false 30 zeroBall).vx| <
      |(resolveSlimeHitSoccer movingSlime (30 / Real.sqrt ((30:ℝ) ^ 2 + (-40:ℝ) ^ 2))
        ((-40) / Real.sqrt ((30:ℝ) ^ 2 + (-40:ℝ) ^ 2)) false 30 zeroBall).vx|) ∧
    (0 < (resolveSlimeHitVolleyball movingSlime (30 / Real.sqrt ((30:ℝ) ^ 2 + (-40:ℝ) ^ 2))
        ((-40) / Real.sqrt ((30:ℝ) ^ 2 + (-40:ℝ) ^ 2)) false 30 zeroBall).vx ∧
      |(resolveSlimeHitVolleyball stillSlime (30 / Real.sqrt ((30:ℝ) ^ 2 + (-40:ℝ) ^ 2))
        ((-40) / Real.sqrt ((30:ℝ) ^ 2 + (-40:ℝ) ^ 2)) false 30 zeroBall).vx| <
      |(resolveSlimeHitVolleyball movingSlime (30 / Real.sqrt ((30:ℝ) ^ 2 + (-40:ℝ) ^ 2))
        ((-40) / Real.sqrt ((30:ℝ) ^ 2 + (-40:ℝ) ^ 2)) false 30 zeroBall).vx|) := by
  have hsqrt : Real.sqrt ((30:ℝ) ^ 2 + (-40:ℝ) ^ 2) = 50 := by
    rw [show ((30:ℝ) ^ 2 + (-40:ℝ) ^ 2) = (50:ℝ) ^ 2 from by norm_num]
    exact Real.sqrt_sq (by norm_num)
  exact C7_momentum_inheritance zeroBall movingSlime stillSlime 30 (-40)
    (by norm_num [movingSlime, slimeSpeed]) (by norm_num [movingSlime])
    (by norm_num [stillSlime]) (by norm_num [stillSlime])
    (by norm_num) (by norm_num [slimeRadius])
    (by rw [hsqrt]; norm_num [slimeRadius, ballRadius])
    (by rw [hsqrt]; norm_num)

/-! Freeze-timer preservation: no physics stage ever writes frozenUntil. -/

theorem clampBallSpeed_frozen (b : Ball) :
    (clampBallSpeed b).frozenUntil = b.frozenUntil := by
  simp only [clampBallSpeed]; split_ifs <;> rfl

theorem applyGravityFriction_frozen (b : Ball) :
    (applyGravityFriction b).frozenUntil = b.frozenUntil := rfl

theorem integratePos_frozen (b : Ball) :
    (integratePos b).frozenUntil = b.frozenUntil := rfl

theorem checkUniversalBoundaries_frozen (b : Ball) :
    (checkUniversalBoundaries b).frozenUntil = b.frozenUntil := by
  simp only [checkUniversalBoundaries]; split_ifs <;> rfl

theorem resolveCircleCollision_frozen (b : Ball) (cx cy cr : ℝ) :
    (resolveCircleCollision b cx cy cr).frozenUntil = b.frozenUntil := by
  simp only [resolveCircleCollision]; split_ifs <;> rfl

theorem resolveSlimeHitSoccer_frozen (sl : Slime) (c sn : ℝ) (st : Bool) (dx : ℝ) (b : Ball) :
    (resolveSlimeHitSoccer sl c sn st dx b).frozenUntil = b.frozenUntil := by
  simp only [resolveSlimeHitSoccer]
  rw [clampBallSpeed_frozen]
  split_ifs <;> rfl

theorem resolveSlimeHitVolleyball_frozen (sl : Slime) (c sn : ℝ) (st : Bool) (dx : ℝ)
    (b : Ball) : (resolveSlimeHitVolleyball sl c sn st dx b).frozenUntil = b.frozenUntil := by
  simp only [resolveSlimeHitVolleyball]
  rw [clampBallSpeed_frozen]
  split_ifs <;> rfl

theorem checkSlimeCollision_frozen (hit : HitResolver)
    (hhit : ∀ sl c sn st dx x, (hit sl c sn st dx x).frozenUntil = x.frozenUntil)
    (sl : Slime) (b : Ball) :
    (checkSlimeCollision hit sl b).frozenUntil = b.frozenUntil := by
  simp only [checkSlimeCollision]
  split_ifs
  · rfl
  · rw [hhit]
  · rw [hhit]
  · rfl

theorem soccerGroundBounce_frozen (b : Ball) :
    (soccerGroundBounce b).frozenUntil = b.frozenUntil := by
  simp only [soccerGroundBounce]; split_ifs <;> rfl

theorem soccerLeftWall_frozen (b : Ball) :
    (soccerLeftWall b).1.frozenUntil = b.frozenUntil := by
  simp only [soccerLeftWall]; split_ifs <;> rfl

theorem soccerRightWall_frozen (b : Ball) :
    (soccerRightWall b).1.frozenUntil = b.frozenUntil := by
  simp only [soccerRightWall]; split_ifs <;> rfl

theorem checkGameGeometrySoccer_frozen (b : Ball) :
    (checkGameGeometrySoccer b).1.frozenUntil = b.frozenUntil := by
  simp only [checkGameGeometrySoccer]
  rw [resolveCircleCollision_frozen, resolveCircleCollision_frozen, soccerRightWall_frozen,
    soccerLeftWall_frozen, soccerGroundBounce_frozen]

theorem volleySideWalls_frozen (b : Ball) :
    (volleySideWalls b).frozenUntil = b.frozenUntil := by
  simp only [volleySideWalls]; split_ifs <;> rfl

theorem volleyNet_frozen (b : Ball) : (volleyNet b).frozenUntil = b.frozenUntil := by
  simp only [volleyNet]
  split_ifs
  · rw [resolveCircleCollision_frozen]
  · rfl
  · rfl
  · rfl
  · rfl

theorem checkGameGeometryVolleyball_frozen (b : Ball) :
    (checkGameGeometryVolleyball b).1.frozenUntil = b.frozenUntil := by
  simp only [checkGameGeometryVolleyball]
  split_ifs
  · rfl
  · rfl
  · show (volleyNet (volleySideWalls b)).frozenUntil = b.frozenUntil
    rw [volleyNet_frozen, volleySideWalls_frozen]

theorem ballUpdateBody_frozen (geom : Ball → Ball × List ℕ) (hit : HitResolver)
    (hgeom : ∀ x, (geom x).1.frozenUntil = x.frozenUntil)
    (hhit : ∀ sl c sn st dx x, (hit sl c sn st dx x).frozenUntil = x.frozenUntil)
    (p1 p2 : Slime) (b : Ball) :
    (ballUpdateBody geom hit p1 p2 b).1.frozenUntil = b.frozenUntil := by
  simp only [ballUpdateBody]
  rw [checkSlimeCollision_frozen hit hhit, checkSlimeCollision_frozen hit hhit, hgeom,
    checkUniversalBoundaries_frozen, integratePos_frozen, clampBallSpeed_frozen,
    applyGravityFriction_frozen]

theorem ballUpdateSoccer_frozen (now : ℤ) (p1 p2 : Slime) (b : Ball) :
    (ballUpdateSoccer now p1 p2 b).1.frozenUntil = b.frozenUntil := by
  simp only [ballUpdateSoccer, ballUpdateWith]
  split_ifs
  · rfl
  · exact ballUpdateBody_frozen _ _ checkGameGeometrySoccer_frozen
      resolveSlimeHitSoccer_frozen p1 p2 b

theorem ballUpdateVolleyball_frozen (now : ℤ) (p1 p2 : Slime) (b : Ball) :
    (ballUpdateVolleyball now p1 p2 b).1.frozenUntil = b.frozenUntil := by
  simp only [ballUpdateVolleyball, ballUpdateWith]
  split_ifs
  · rfl
  · exact ballUpdateBody_frozen _ _ checkGameGeometryVolleyball_frozen
      resolveSlimeHitVolleyball_frozen p1 p2 b

/-- The soccer rollout loop's result does not depend on the wall-clock
stream, as long as every sampled time is nonnegative and the ball's freeze
timer is reset to 0. -/
theorem soccerSimLoop_nows_irrelevant (nows1 nows2 : ℕ → ℤ)
    (h1 : ∀ i, 0 ≤ nows1 i) (h2 : ∀ i, 0 ≤ nows2 i) (plan : Plan) (p1Input : InputSource) :
    ∀ (fuel i : ℕ) (p1 p2 : Slime) (b : Ball), b.frozenUntil = 0 →
      soccerSimLoop nows1 plan p1Input i fuel p1 p2 b =
      soccerSimLoop nows2 plan p1Input i fuel p1 p2 b := by
  intro fuel
  induction fuel with
  | zero => intro i p1 p2 b _; rfl
  | succ n ih =>
    intro i p1 p2 b hb
    have hupd : ∀ q1 q2 : Slime, ballUpdateSoccer (nows1 i) q1 q2 b =
        ballUpdateSoccer (nows2 i) q1 q2 b := by
      intro q1 q2
      simp only [ballUpdateSoccer, ballUpdateWith]
      rw [if_neg (not_lt.mpr (by rw [hb]; exact h1 i)),
        if_neg (not_lt.mpr (by rw [hb]; exact h2 i))]
    simp only [soccerSimLoop]
    rw [hupd]
    rcases hlast : (ballUpdateSoccer (nows2 i) (slimeUpdateSoccer p1Input p1)
        (slimeUpdateSoccer (buildP2Input plan.action (decide (i = 0) && plan.jumpOnStep0)) p2)
        b).2.getLast? with _ | sp
    · exact ih (i + 1) _ _ _ (by rw [ballUpdateSoccer_frozen, hb])
    · rfl

/-- The volleyball rollout loop's result does not depend on the wall-clock
stream either. -/
theorem volleySimLoop_nows_irrelevant (nows1 nows2 : ℕ → ℤ)
    (h1 : ∀ i, 0 ≤ nows1 i) (h2 : ∀ i, 0 ≤ nows2 i) (plan : Plan) (p1Input : InputSource) :
    ∀ (fuel i : ℕ) (p1 p2 : Slime) (b : Ball) (st : VolleyLoopState), b.frozenUntil = 0 →
      volleySimLoop nows1 plan p1Input i fuel p1 p2 b st =
      volleySimLoop nows2 plan p1Input i fuel p1 p2 b st := by
  intro fuel
  induction fuel with
  | zero => intro i p1 p2 b st _; rfl
  | succ n ih =>
    intro i p1 p2 b st hb
    have hupd : ∀ q1 q2 : Slime, ballUpdateVolleyball (nows1 i) q1 q2 b =
        ballUpdateVolleyball (nows2 i) q1 q2 b := by
      intro q1 q2
      simp only [ballUpdateVolleyball, ballUpdateWith]
      rw [if_neg (not_lt.mpr (by rw [hb]; exact h1 i)),
        if_neg (not_lt.mpr (by rw [hb]; exact h2 i))]
    simp only [volleySimLoop]
    rw [hupd]
    rcases hlast : (ballUpdateVolleyball (nows2 i) (slimeUpdateVolleyball p1Input p1)
        (slimeUpdateVolleyball (buildP2Input plan.action (decide (i = 0) && plan.jumpOnStep0))
          p2) b).2.getLast? with _ | sp
    · exact ih (i + 1) _ _ _ _ (by rw [ballUpdateVolleyball_frozen, hb])
    · rfl

/-- C2: two invocations of the soccer or volleyball rollout simulate with
identical snapshot, horizon and plans return identical results - verdict,
terminal step index, final snapshot (and volleyball metrics) - independently
of the wall-clock times sampled by the freeze check, because the rollout
resets the ball's freeze timer to 0 so the Date.now() comparison can never
fire for nonnegative clock values. -/
theorem C2_rollout_determinism (snapshot : WorldSnapshot) (steps : ℕ) (plan : Plan)
    (p1src : P1Source) (nows1 nows2 : ℕ → ℤ)
    (h1 : ∀ i, 0 ≤ nows1 i) (h2 : ∀ i, 0 ≤ nows2 i) :
    soccerSimulate nows1 snapshot steps plan p1src =
      soccerSimulate nows2 snapshot steps plan p1src ∧
    volleySimulate nows1 snapshot steps plan p1src =
      volleySimulate nows2 snapshot steps plan p1src := by
  constructor
  · exact soccerSimLoop_nows_irrelevant nows1 nows2 h1 h2 plan (resolveP1Input p1src)
      steps 0 _ _ _ rfl
  · exact volleySimLoop_nows_irrelevant nows1 nows2 h1 h2 plan (resolveP1Input p1src)
      steps 0 _ _ _ _ rfl

/-- Witness for C2: a three-tick rollout from a concrete snapshot gives the
same result whether the clock reads 0 or 123456 every tick. -/
theorem C2_rollout_determinism_witness :
    soccerSimulate (fun _ => 0) snapshot0 3 { action := Action.NONE, jumpOnStep0 := false }
        P1Source.defaultNeutral =
      soccerSimulate (fun _ => 123456) snapshot0 3
        { action := Action.NONE, jumpOnStep0 := false } P1Source.defaultNeutral ∧
    volleySimulate (fun _ => 0) snapshot0 3 { action := Action.NONE, jumpOnStep0 := false }
        P1Source.defaultNeutral =
      volleySimulate (fun _ => 123456) snapshot0 3
        { action := Action.NONE, jumpOnStep0 := false } P1Source.defaultNeutral :=
  C2_rollout_determinism snapshot0 3 { action := Action.NONE, jumpOnStep0 := false }
    P1Source.defaultNeutral (fun _ => 0) (fun _ => 123456)
    (fun _ => le_refl 0) (fun _ => by norm_num)

end SlimeSpec
